import Mathlib

/-!
Verification development for the Gantt request-to-action translation pipeline
(`agent-service/main.py`).

The post-LLM logic of the pipeline is embedded shallowly:

* JSON values produced by `json.loads` are modelled by the inductive `JValue`
  (numbers as `Int`; no claim involves fractional numeric fields).  Parsed
  objects are association lists with distinct keys (as `json.loads` yields
  Python dicts, keeping the last binding for a duplicated key).
* `json.loads` itself (together with the fenced-block extraction and comment
  stripping that feed it, main.py lines 948-962) is Python-stdlib / regex
  machinery external to the translation logic; it is abstracted as the
  `parsed : Option JValue` argument of `processParse`, where `none` models
  `json.JSONDecodeError`.
* Python exceptions are modelled with `Except String`; the `try/except`
  structure of `GanttAgentService.process` is mirrored by matching on the
  `Except` value.
* All string computation is done through `List Char` helpers so that every
  definition evaluates by kernel reduction on concrete inputs.
-/

/-- JSON value as produced by `json.loads`. -/
inductive JValue where
  | null
  | bool (b : Bool)
  | num (n : Int)
  | str (s : String)
  | arr (elems : List JValue)
  | obj (fields : List (String × JValue))

/-- Character-list equality used for all string comparisons (kernel-reducible). -/
def sEq (a b : String) : Bool := a.data == b.data

/-- Membership of a string in a list of string tokens. -/
def sMem (a : String) (l : List String) : Bool := l.any (fun t => sEq a t)

/-- Python `dict.get(key)` on a parsed JSON object: the value bound to `key`,
if any (keys are distinct, so the first match is the binding). -/
def dictGet (fields : List (String × JValue)) (key : String) : Option JValue :=
  (fields.find? (fun p => sEq p.fst key)).map (fun p => p.snd)

/-- Python `dict.get(key, default)`. -/
def dictGetD (fields : List (String × JValue)) (key : String) (dflt : JValue) : JValue :=
  (dictGet fields key).getD dflt

/-- Python `key in dict`. -/
def hasKey (fields : List (String × JValue)) (key : String) : Bool :=
  (dictGet fields key).isSome

/-- Python `dict[key] = v`: overwrite an existing binding in place, else append. -/
def dictSet (fields : List (String × JValue)) (key : String) (v : JValue) :
    List (String × JValue) :=
  if hasKey fields key then
    fields.map (fun p => if sEq p.fst key then (p.fst, v) else p)
  else fields ++ [(key, v)]

/-- Rendering of a JSON value inside a Python f-string (`f"执行操作: ⋯"`,
main.py line 972).  Only the string case is ever exercised by well-formed
backend replies; the other cases approximate Python `str()`. -/
def pyStr : JValue → String
  | .null => "None"
  | .bool true => "True"
  | .bool false => "False"
  | .num n => toString n
  | .str s => s
  | .arr _ => "[...]"
  | .obj _ => "\x7b...\x7d"

/-- Model of `AgentAction` (main.py lines 40-45): the validated shape of one proposed
action.  `params` keeps the open key-value map of the `params` JSON object. -/
structure AgentAction where
  type : String
  params : List (String × JValue)
  description : String
  requiresConfirmation : Bool

/-- Model of `AgentResponse` (main.py lines 48-55): the pipeline result returned to the
frontend. -/
structure AgentResponse where
  success : Bool
  message : String
  actions : List AgentAction
  needs_clarification : Bool
  clarification_questions : List String
  requiresConfirmation : Bool

/-- The `dangerous_actions` list (main.py line 965). -/
def dangerous_actions : List String := ["delete_task", "delete_bucket", "remove_dependency"]

/-- Pydantic validation of a `str` field: only a JSON string is accepted
(pydantic v2 does not coerce numbers, booleans or null into `str`). -/
def coerceStr : JValue → Except String String
  | .str s => .ok s
  | _ => .error "validation error: str expected"

/-- Pydantic validation of a `bool` field, restricted to the JSON-boolean case
(the only case the backend contract produces). -/
def coerceBool : JValue → Except String Bool
  | .bool b => .ok b
  | _ => .error "validation error: bool expected"

/-- Pydantic validation of `params : Dict[str, Any]`. -/
def coerceParams : JValue → Except String (List (String × JValue))
  | .obj fs => .ok fs
  | _ => .error "validation error: dict expected"

/-- Pydantic validation of `List[str]`. -/
def coerceStrList : JValue → Except String (List String)
  | .arr xs => xs.mapM coerceStr
  | _ => .error "validation error: list of str expected"

/-- Whether a raw action entry carries a dangerous `type`
(`action_type = action_data.get("type", "")` followed by the membership test
against `dangerous_actions`, main.py lines 975-976; a non-string `type` value
is never equal to a dangerous string). -/
def dangerousEntry : JValue → Bool
  | .obj fields =>
    match dictGetD fields "type" (.str "") with
    | .str t => sMem t dangerous_actions
    | _ => false
  | _ => false

/-- Body of the per-action loop (main.py lines 968-980): synthesize a missing
`description`, force `requiresConfirmation` on dangerous kinds, then validate
the entry as an `AgentAction` (pydantic `AgentAction(**action_data)`; extra
keys are ignored, a missing or non-string `type` raises).  A non-dict entry
always raises inside the loop body (`in` / item assignment / `.get` on a
non-dict).  Returns the validated action together with the dangerous flag the
iteration contributes to `response_requires_confirmation`. -/
def processEntry : JValue → Except String (AgentAction × Bool)
  | .obj fields0 => do
    let fields1 :=
      if hasKey fields0 "description" then fields0
      else
        dictSet fields0 "description"
          (.str ("执行操作: " ++ pyStr (dictGetD fields0 "type" (.str "unknown"))))
    let dangerous := dangerousEntry (.obj fields0)
    let fields2 :=
      if dangerous then dictSet fields1 "requiresConfirmation" (.bool true) else fields1
    let ty ← match dictGet fields2 "type" with
      | some v => coerceStr v
      | none => .error "validation error: field required: type"
    let desc ← match dictGet fields2 "description" with
      | some v => coerceStr v
      | none => .error "validation error: field required: description"
    let params ← match dictGet fields2 "params" with
      | some v => coerceParams v
      | none => .ok []
    let rc ← match dictGet fields2 "requiresConfirmation" with
      | some v => coerceBool v
      | none => .ok false
    .ok ({ type := ty, params := params, description := desc, requiresConfirmation := rc }, dangerous)
  | _ => .error "TypeError: action entry is not a dict"

/-- The `for action_data in result.get("actions", [])` loop (main.py
lines 968-980): builds the action list in order and accumulates whether any
iteration set `response_requires_confirmation`.  The first raising entry
aborts the whole loop (the exception propagates to the generic handler). -/
def buildActions : List JValue → Except String (List AgentAction × Bool)
  | [] => .ok ([], false)
  | e :: rest => do
    let (a, d) ← processEntry e
    let (as, ds) ← buildActions rest
    .ok (a :: as, d || ds)

/-- Python iteration over the value of the `actions` key.  A JSON array yields
its elements; iterating a string yields its one-character strings and a dict
its keys (each of which then raises inside the loop body, a non-dict entry);
numbers, booleans and null are not iterable and raise at once. -/
def iterActions : JValue → Except String (List JValue)
  | .arr xs => .ok xs
  | .str s => .ok (s.data.map (fun c => .str (String.mk [c])))
  | .obj fields => .ok (fields.map (fun p => .str p.fst))
  | _ => .error "TypeError: not iterable"

/-- The success-path assembly of `GanttAgentService.process` (main.py
lines 964-993), given the parsed top-level JSON object: build the action list,
apply the batch-confirmation policy, and validate the `AgentResponse` fields.
Any raised exception is returned as `.error` and handled by the caller's
generic `except Exception` branch. -/
def processTop (fields : List (String × JValue)) : Except String AgentResponse := do
  let rawActions ← iterActions (dictGetD fields "actions" (.arr []))
  let (actions, dangerous) ← buildActions rawActions
  -- `if len(actions) > 1: response_requires_confirmation = True` (lines 982-984)
  let response_requires_confirmation :=
    if 1 < actions.length then true else dangerous
  let msg ← match dictGet fields "response" with
    | some v => coerceStr v
    | none => .ok "Processed successfully"
  let needs ← match dictGet fields "needs_clarification" with
    | some v => coerceBool v
    | none => .ok false
  let qs ← match dictGet fields "clarification_questions" with
    | some v => coerceStrList v
    | none => .ok []
  -- `response_requires_confirmation or result.get("requiresConfirmation", False)` (line 992)
  let finalRC ← if response_requires_confirmation then .ok true
    else match dictGet fields "requiresConfirmation" with
      | some v => coerceBool v
      | none => .ok false
  .ok { success := true, message := msg, actions := actions, needs_clarification := needs,
        clarification_questions := qs, requiresConfirmation := finalRC }

/-- Python `str.strip()` restricted to ASCII whitespace (the whitespace
occurring in this pipeline). -/
def pyStrip (s : String) : String :=
  String.mk (((s.data.dropWhile Char.isWhitespace).reverse.dropWhile Char.isWhitespace).reverse)

/-- Python `len` on a string (code points). -/
def pyLen (s : String) : Nat := s.data.length

/-- Python slicing `s[:n]` (first `n` code points). -/
def pyTake (n : Nat) (s : String) : String := String.mk (s.data.take n)

/-- The truncated raw reply embedded by the `json.JSONDecodeError` fallback
(main.py lines 999-1001): the stripped raw text, cut to 500 characters with a
`"..."` marker when longer. -/
def fallbackReply (response_text : String) : String :=
  let fallback_msg := pyStrip response_text
  if 500 < pyLen fallback_msg then pyTake 500 fallback_msg ++ "..." else fallback_msg

/-- The canned re-prompt suggestion of the parse-failure fallback (main.py
line 1007). -/
def fallbackSuggestion : String :=
  "请换一种方式描述您的需求，例如：\x27添加一个任务叫XXX，明天开始，持续3天\x27"

/-- The `json.JSONDecodeError` fallback result (main.py lines 995-1008). -/
def jsonErrorResult (response_text : String) : AgentResponse :=
  { success := false
    message := "AI 返回了非结构化内容，请重新描述需求。\n\nAI 原始回复: " ++ fallbackReply response_text
    actions := []
    needs_clarification := true
    clarification_questions := [fallbackSuggestion]
    requiresConfirmation := false }

/-- The generic `except Exception` result (main.py lines 1009-1019). -/
def genericErrorResult (e : String) : AgentResponse :=
  { success := false
    message := "处理请求时出错: " ++ e
    actions := []
    needs_clarification := true
    clarification_questions := ["请尝试重新描述您的需求"]
    requiresConfirmation := false }

/-- The parsing half of `GanttAgentService.process` (main.py lines 946-1019):
`response_text` is the raw LLM reply and `parsed` the outcome of JSON
extraction + comment stripping + `json.loads` on it (`none` models
`json.JSONDecodeError`).  A parsed non-object raises at `result.get` and lands
in the generic handler, as does any exception from the success path. -/
def processParse (response_text : String) (parsed : Option JValue) : AgentResponse :=
  match parsed with
  | none => jsonErrorResult response_text
  | some v =>
    match (match v with
           | .obj fields => processTop fields
           | _ => .error "AttributeError: result has no attribute get") with
    | .ok r => r
    | .error e => genericErrorResult e

/-- The LLM-failure tier of `GanttAgentService.process` (main.py
lines 936-944): a failed backend call produces a failure result with
`needs_clarification = False`. -/
def llmFailureResult (e : String) : AgentResponse :=
  { success := false
    message := "AI 服务调用失败: " ++ e
    actions := []
    needs_clarification := false
    clarification_questions := []
    requiresConfirmation := false }

/-- Input validation of the `/api/chat` endpoint (main.py lines 1063-1085):
empty or whitespace-only messages and messages longer than 2000 characters are
rejected before `process` runs; otherwise the `process` outcome is returned. -/
def chatEndpoint (message : String) (processResult : AgentResponse) : AgentResponse :=
  if sEq message "" || sEq (pyStrip message) "" then
    { success := false
      message := "请输入您的指令"
      actions := []
      needs_clarification := true
      clarification_questions := ["请描述您想要执行的操作"]
      requiresConfirmation := false }
  else if 2000 < pyLen message then
    { success := false
      message := "输入内容过长，请简化您的指令（最多2000字）"
      actions := []
      needs_clarification := true
      clarification_questions := []
      requiresConfirmation := false }
  else processResult

-- ===== date resolver (GanttAgentService._calculate_date, main.py lines 725-836) =====

/-- Python `str.lower()` restricted to ASCII letters (the tokens of the
resolver are ASCII or Chinese; Chinese characters are unaffected). -/
def pyLower (s : String) : String :=
  String.mk (s.data.map (fun c =>
    if 65 ≤ c.toNat ∧ c.toNat ≤ 90 then Char.ofNat (c.toNat + 32) else c))

/-- The `weekday_map` dict (main.py lines 741-749), in dict insertion order. -/
def weekday_map : List (String × Nat) :=
  [("下周一", 0), ("next monday", 0), ("下周二", 1), ("next tuesday", 1),
   ("下周三", 2), ("next wednesday", 2), ("下周四", 3), ("next thursday", 3),
   ("下周五", 4), ("next friday", 4), ("下周六", 5), ("next saturday", 5),
   ("下周日", 6), ("next sunday", 6)]

/-- Python `datetime.weekday()` on a proleptic-Gregorian ordinal (`date.toordinal`
convention: ordinal 1 = 0001-01-01, a Monday; Monday = 0). -/
def weekdayOf (ordinal : Nat) : Nat := (ordinal + 6) % 7

/-- Value of `date(9999, 12, 31).toordinal()`: the largest ordinal `datetime` supports. -/
def maxOrdinal : Nat := 3652059

/-- Ordinal → (year, month, day), proleptic Gregorian (civil-from-days). -/
def ordToYmd (ordinal : Nat) : Nat × Nat × Nat :=
  let n := ordinal + 305
  let era := n / 146097
  let doe := n % 146097
  let yoe := (doe - doe / 1460 + doe / 36524 - doe / 146096) / 365
  let y := yoe + era * 400
  let doy := doe - (365 * yoe + yoe / 4 - yoe / 100)
  let mp := (5 * doy + 2) / 153
  let d := doy - (153 * mp + 2) / 5 + 1
  let m := if mp < 10 then mp + 3 else mp - 9
  (if m ≤ 2 then y + 1 else y, m, d)

/-- Conversion (year, month, day) → ordinal, proleptic Gregorian (days-from-civil). -/
def ymdToOrd (y m d : Nat) : Nat :=
  let y2 := if m ≤ 2 then y - 1 else y
  let era := y2 / 400
  let yoe := y2 % 400
  let doy := (153 * (if 2 < m then m - 3 else m + 9) + 2) / 5 + d - 1
  let doe := yoe * 365 + yoe / 4 - yoe / 100 + doy
  era * 146097 + doe - 305

def pad2 (n : Nat) : String := if n < 10 then "0" ++ toString n else toString n

def pad4 (n : Nat) : String :=
  if n < 10 then "000" ++ toString n
  else if n < 100 then "00" ++ toString n
  else if n < 1000 then "0" ++ toString n
  else toString n

/-- Formatting `strftime("%Y-%m-%d")`. -/
def fmtYmd (y m d : Nat) : String := pad4 y ++ "-" ++ pad2 m ++ "-" ++ pad2 d

def fmtOrd (ordinal : Nat) : String :=
  match ordToYmd ordinal with
  | (y, m, d) => fmtYmd y m d

/-- Exceptions `_calculate_date` can raise: `OverflowError` from a `timedelta`
addition leaving the supported ordinal range, `ValueError` from constructing a
`datetime` whose year exceeds 9999. -/
inductive CalError where
  | overflowOrdinal (ordinal : Int)
  | badYear (y : Nat)

/-- Model of `(reference_date + timedelta(...)).strftime("%Y-%m-%d")`: the addition
raises `OverflowError` past the last representable day.  (The lower bound
cannot be crossed here: every addition in `_calculate_date` is nonnegative and
the reference ordinal is at least 1.) -/
def mkOrdStr (o : Int) : Except CalError String :=
  if o ≤ (maxOrdinal : Int) then .ok (fmtOrd o.toNat) else .error (.overflowOrdinal o)

def isLeap (y : Nat) : Bool := (y % 4 == 0 && y % 100 != 0) || y % 400 == 0

def daysInMonth (y m : Nat) : Nat :=
  if m == 2 then (if isLeap y then 29 else 28)
  else if m == 4 || m == 6 || m == 9 || m == 11 then 30
  else 31

/-- Next-weekday branch (main.py lines 750-755): `days_ahead = weekday -
reference_date.weekday()`, bumped by 7 when non-positive. -/
def nextWeekdayResolve (w : Nat) (ref : Nat) : Except CalError String :=
  let days_ahead : Int := (w : Int) - (weekdayOf ref : Int)
  let days_ahead := if days_ahead ≤ 0 then days_ahead + 7 else days_ahead
  mkOrdStr ((ref : Int) + days_ahead)

/-- The "下周"/"next week" branch (main.py lines 757-762). -/
def nextWeekResolve (ref : Nat) : Except CalError String :=
  let days_ahead : Int := 0 - (weekdayOf ref : Int) + 7
  let days_ahead := if weekdayOf ref == 0 then 7 else days_ahead
  mkOrdStr ((ref : Int) + days_ahead)

/-- The "下个月"/"next month" branch (main.py lines 764-770): first day of the
next month; `datetime(year, ...)` raises `ValueError` past year 9999. -/
def nextMonthResolve (ref : Nat) : Except CalError String :=
  match ordToYmd ref with
  | (y, m, _) =>
    if m == 12 then
      if y + 1 ≤ 9999 then .ok (fmtYmd (y + 1) 1 1) else .error (.badYear (y + 1))
    else
      if y ≤ 9999 then .ok (fmtYmd y (m + 1) 1) else .error (.badYear y)

/-- The "本月底"/"月底"/"end of month" branch (main.py lines 772-778): first day of
the next month minus one day. -/
def endOfMonthResolve (ref : Nat) : Except CalError String :=
  match ordToYmd ref with
  | (y, m, _) =>
    if m == 12 then
      if y + 1 ≤ 9999 then .ok (fmtOrd (ymdToOrd (y + 1) 1 1 - 1)) else .error (.badYear (y + 1))
    else
      if y ≤ 9999 then .ok (fmtOrd (ymdToOrd y (m + 1) 1 - 1)) else .error (.badYear y)

def isDigitA (c : Char) : Bool := 48 ≤ c.toNat && c.toNat ≤ 57

def isWsA (c : Char) : Bool := c.isWhitespace

def startsWithL : List Char → List Char → Bool
  | [], _ => true
  | _ :: _, [] => false
  | p :: ps, c :: cs => p == c && startsWithL ps cs

def digitsToNat (cs : List Char) : Nat :=
  cs.foldl (fun acc c => acc * 10 + (c.toNat - 48)) 0

/-- Suffix \s*(天|日)\s*(后|later) after the digit run. -/
def daysLaterSuffix (cs : List Char) : Bool :=
  match cs.dropWhile isWsA with
  | c :: rest =>
    if c == '天' || c == '日' then
      let rest1 := rest.dropWhile isWsA
      startsWithL "后".data rest1 || startsWithL "later".data rest1
    else false
  | [] => false

/-- Model of re.search for the days-later pattern (\d+)\s*(天|日)\s*(后|later) (main.py line 782):
leftmost match, returning group 1.  Taking the maximal digit run at each start
position is equivalent to the backtracking regex: after any shorter run the
next character is a digit, which is neither whitespace nor 天/日. -/
def daysLaterScan : List Char → Option (List Char)
  | [] => none
  | c :: cs =>
    if isDigitA c then
      let run := (c :: cs).takeWhile isDigitA
      if daysLaterSuffix ((c :: cs).dropWhile isDigitA) then some run
      else daysLaterScan cs
    else daysLaterScan cs

/-- CPython `_strptime` pattern for `%m`: `1[0-2]|0[1-9]|[1-9]` (two digits). -/
def parseMonth2 (a b : Char) : Option Nat :=
  if a == '1' && (b == '0' || b == '1' || b == '2') then some (10 + (b.toNat - 48))
  else if a == '0' && isDigitA b && b != '0' then some (b.toNat - 48)
  else none

/-- Pattern `%m` as a single digit: `[1-9]`. -/
def parseMonth1 (a : Char) : Option Nat :=
  if isDigitA a && a != '0' then some (a.toNat - 48) else none

/-- Pattern `%d` two-digit forms: `3[01]|[12]\d|0[1-9]`. -/
def parseDay2 (a b : Char) : Option Nat :=
  if a == '3' && (b == '0' || b == '1') then some (30 + (b.toNat - 48))
  else if (a == '1' || a == '2') && isDigitA b then some ((a.toNat - 48) * 10 + (b.toNat - 48))
  else if a == '0' && isDigitA b && b != '0' then some (b.toNat - 48)
  else none

/-- Pattern `%d` as a single digit: `[1-9]`. -/
def parseDay1 (a : Char) : Option Nat :=
  if isDigitA a && a != '0' then some (a.toNat - 48) else none

/-- Pattern `%m` followed by a literal separator, with regex backtracking: prefer the
two-digit month if the separator follows it, else the one-digit month. -/
def parseMonthThen (sep : Char) : List Char → Option (Nat × List Char)
  | a :: b :: s :: rest =>
    match parseMonth2 a b with
    | some m =>
      if s == sep then some (m, rest)
      else match parseMonth1 a with
        | some m1 => if b == sep then some (m1, s :: rest) else none
        | none => none
    | none =>
      match parseMonth1 a with
      | some m1 => if b == sep then some (m1, s :: rest) else none
      | none => none
  | [a, b] =>
    match parseMonth1 a with
    | some m1 => if b == sep then some (m1, []) else none
    | none => none
  | _ => none

/-- Pattern `%d` at end of input (`strptime` rejects unconverted trailing data). -/
def parseDayEnd : List Char → Option Nat
  | [a] => parseDay1 a
  | [a, b] => parseDay2 a b
  | _ => none

/-- Pattern `%d` followed by a literal final character. -/
def parseDayThenEnd (tok : Char) : List Char → Option Nat
  | [a, t] => if t == tok then parseDay1 a else none
  | [a, b, t] => if t == tok then parseDay2 a b else none
  | _ => none

/-- Model of `datetime.strptime(date_expr, "%Y-%m-%d")` (main.py lines 788-792): `%Y`
is exactly four digits; the resulting date must be constructible (year ≥ 1,
day within the month). -/
def tryParseYmdDash (cs : List Char) : Option (Nat × Nat × Nat) :=
  match cs with
  | y1 :: y2 :: y3 :: y4 :: s :: rest =>
    if isDigitA y1 && isDigitA y2 && isDigitA y3 && isDigitA y4 && s == '-' then
      match parseMonthThen '-' rest with
      | some (m, rest2) =>
        match parseDayEnd rest2 with
        | some d =>
          let y := digitsToNat [y1, y2, y3, y4]
          if 1 ≤ y && d ≤ daysInMonth y m then some (y, m, d) else none
        | none => none
      | none => none
    else none
  | _ => none

/-- Model of `datetime.strptime(date_expr, "%Y年%m月%d日")` (main.py lines 795-799). -/
def tryParseYmdCn (cs : List Char) : Option (Nat × Nat × Nat) :=
  match cs with
  | y1 :: y2 :: y3 :: y4 :: s :: rest =>
    if isDigitA y1 && isDigitA y2 && isDigitA y3 && isDigitA y4 && s == '年' then
      match parseMonthThen '月' rest with
      | some (m, rest2) =>
        match parseDayThenEnd '日' rest2 with
        | some d =>
          let y := digitsToNat [y1, y2, y3, y4]
          if 1 ≤ y && d ≤ daysInMonth y m then some (y, m, d) else none
        | none => none
      | none => none
    else none
  | _ => none

/-- Model of `datetime.strptime(date_expr, "%m月%d日")` (main.py lines 802-808):
`strptime` validates against its default year 1900 (not a leap year), so
2月29日 never parses; any (month, day) valid in 1900 is valid in every year. -/
def tryParseMdCn (cs : List Char) : Option (Nat × Nat) :=
  match parseMonthThen '月' cs with
  | some (m, rest2) =>
    match parseDayThenEnd '日' rest2 with
    | some d => if d ≤ daysInMonth 1900 m then some (m, d) else none
    | none => none
  | none => none

/-- Whether `sub` occurs as a substring (Python `in` on strings). -/
def containsL (sub : List Char) : List Char → Bool
  | [] => startsWithL sub []
  | c :: cs => startsWithL sub (c :: cs) || containsL sub cs

/-- The `month_names` dict (main.py lines 812-825), in dict insertion order. -/
def month_names : List (String × Nat) :=
  [("january", 1), ("jan", 1), ("february", 2), ("feb", 2), ("march", 3), ("mar", 3),
   ("april", 4), ("apr", 4), ("may", 5), ("june", 6), ("jun", 6), ("july", 7), ("jul", 7),
   ("august", 8), ("aug", 8), ("september", 9), ("sep", 9), ("sept", 9),
   ("october", 10), ("oct", 10), ("november", 11), ("nov", 11), ("december", 12), ("dec", 12)]

/-- Model of re.search for the day pattern (\d\x7b1,2\x7d): at most two digits starting at the
first digit of the input. -/
def firstDayDigits : List Char → Option Nat
  | [] => none
  | c :: cs =>
    if isDigitA c then some (digitsToNat (((c :: cs).takeWhile isDigitA).take 2))
    else firstDayDigits cs

/-- Whether `datetime(y, m, d)` is constructible. -/
def validYmd (y m d : Nat) : Bool :=
  1 ≤ y && y ≤ 9999 && 1 ≤ m && m ≤ 12 && 1 ≤ d && d ≤ daysInMonth y m

/-- The month-name loop (main.py lines 826-832): the first month name occurring
as a substring wins; without a digit in the input the loop moves on; an
unconstructible date raises `ValueError`, which the surrounding `try` turns
into the final `return None`. -/
def monthNameLoop (names : List (String × Nat)) (date_expr : List Char) (refYear : Nat) :
    Option String :=
  match names with
  | [] => none
  | (nm, mo) :: rest =>
    if containsL nm.data date_expr then
      match firstDayDigits date_expr with
      | some day =>
        if validYmd refYear mo day then some (fmtYmd refYear mo day) else none
      | none => monthNameLoop rest date_expr refYear
    else monthNameLoop rest date_expr refYear

/-- Model of `GanttAgentService._calculate_date` (main.py lines 725-836): resolve a
natural-language date expression against a reference date, given as its
proleptic-Gregorian ordinal.  `.ok none` models `return None`; `.error`
models an uncaught Python exception. -/
def calculateDate (date_expression : String) (reference_date : Nat) :
    Except CalError (Option String) :=
  let date_expr := pyStrip (pyLower date_expression)
  if sMem date_expr ["今天", "today"] then .ok (some (fmtOrd reference_date))
  else if sMem date_expr ["明天", "tomorrow"] then (mkOrdStr ((reference_date : Int) + 1)).map some
  else
    match (weekday_map.find? (fun p => sEq date_expr p.fst)).map (fun p => p.snd) with
    | some w => (nextWeekdayResolve w reference_date).map some
    | none =>
      if sMem date_expr ["下周", "next week"] then (nextWeekResolve reference_date).map some
      else if sMem date_expr ["下个月", "next month"] then (nextMonthResolve reference_date).map some
      else if sMem date_expr ["本月底", "月底", "end of month"] then
        (endOfMonthResolve reference_date).map some
      else match daysLaterScan date_expr.data with
        | some digits => (mkOrdStr ((reference_date : Int) + (digitsToNat digits : Int))).map some
        | none =>
          match tryParseYmdDash date_expr.data with
          | some _ => .ok (some date_expr)
          | none =>
            match tryParseYmdCn date_expr.data with
            | some (y, m, d) => .ok (some (fmtYmd y m d))
            | none =>
              match tryParseMdCn date_expr.data with
              | some (m, d) =>
                .ok (some (fmtYmd (ordToYmd reference_date).fst m d))
              | none =>
                match monthNameLoop month_names date_expr.data (ordToYmd reference_date).fst with
                | some s => .ok (some s)
                | none => .ok none

/-- Whether any resolution rule of `_calculate_date` matches the input (the
conditions of the branches above, in order). -/
def ruleMatches (date_expression : String) (reference_date : Nat) : Bool :=
  let date_expr := pyStrip (pyLower date_expression)
  sMem date_expr ["今天", "today"] || sMem date_expr ["明天", "tomorrow"] ||
  weekday_map.any (fun p => sEq date_expr p.fst) ||
  sMem date_expr ["下周", "next week"] || sMem date_expr ["下个月", "next month"] ||
  sMem date_expr ["本月底", "月底", "end of month"] ||
  (daysLaterScan date_expr.data).isSome ||
  (tryParseYmdDash date_expr.data).isSome ||
  (tryParseYmdCn date_expr.data).isSome ||
  (tryParseMdCn date_expr.data).isSome ||
  (monthNameLoop month_names date_expr.data (ordToYmd reference_date).fst).isSome

-- ===== system prompt template and year rewriting (C8) =====

/-- The fixed instruction template `GanttAgentService._build_system_prompt`
(main.py lines 132-723), split at line boundaries into segments small enough
for kernel evaluation; `system_prompt` below joins them with newlines,
reconstructing the template verbatim. -/
def systemPromptSegs : List String :=
  ["你是一个甘特图任务管理助手。理解用户意图并返回结构化的 JSON 动作指令。\n\n# 角色定义\n你是一个专业的项目管理助手，帮助用户通过自然语言管理甘特图中的任务、里程碑和分组。你需要准确理解用户意图，并返回正确的操作指令。\n\n# 关键词识别规则（重要）\n当用户输入包含以下关键词时，必须严格按照对应规则处理：\n\n1. **里程碑分组识别关键词**（必须设置 bucketType: \"milestone\"）：\n   - \"里程碑分组\"、\"里程牌分组\"、\"milestone分组\"、\"里程碑bucket\"、\"milestone bucket\"",
   "   - \"创建里程碑分组\"、\"添加里程碑分组\"、\"新建里程碑分组\"\n   - \"创建里程牌分组\"、\"添加里程牌分组\"、\"新建里程牌分组\"\n   - **检测规则**：当用户输入中同时包含\"里程碑\"(或\"里程牌\")和\"分组\"两个词时，bucketType 必须设为 \"milestone\"\n\n2. **普通分组识别关键词**（bucketType 设为 \"task\" 或不设置）：\n   - 只说\"分组\"、\"bucket\"，但没有\"里程碑\"或\"里程牌\"关键字\n   - \"任务分组\"、\"task分组\"\n\n3. **对比示例**（必须严格遵守）：",
   "   - \"添加里程碑分组OEM\" → bucketType: \"milestone\" ✅\n   - \"添加里程牌分组OEM\" → bucketType: \"milestone\" ✅\n   - \"创建milestone分组\" → bucketType: \"milestone\" ✅\n   - \"添加分组OEM\" → bucketType: \"task\" ✅（没有\"里程碑\"关键字）\n\n4. **特殊提醒**：\n   - \"里程牌\"是\"里程碑\"的常见拼写错误，必须识别为里程碑分组\n   - 检测时使用模糊匹配，包含\"里程碑\"或\"里程牌\"都应被视为里程碑相关\n",
   "5. **在现有分组中添加节点**（重要）：\n   - 当用户说\"在XXX分组里添加\"、\"在XXX分组中添加\"、\"XXX分组里面添加\"时：\n     - **不要创建新分组**！\n     - 从上下文的\"所有分组\"列表中查找名称包含XXX的分组\n     - 上下文中的分组格式为：\"分组名(类型)\"，如\"OEM(里程碑分组)\"或\"OEM(任务分组)\"\n     - 如果找到多个相似分组，优先使用标记为\"(里程碑分组)\"的分组（如果是添加里程碑）\n     - 使用add_milestone或add_task操作，将bucketId设为找到的分组名称（不需要括号和类型）",
   "   - 示例：\"在OEM分组里添加三个里程碑\" → 从上下文找到\"OEM(里程碑分组)\"，创建3个里程碑，bucketId设为\"OEM\"\n\n6. **推迟/提前任务时间**（重要）：\n   - 当用户说\"推迟X周\"、\"延后X周\"、\"退后X周\"、\"向后推X周\"时，使用shiftWeeks参数\n   - 当用户说\"推迟X天\"、\"延后X天\"、\"提前X天\"、\"早X天\"时，使用shiftDays参数\n   - **shiftWeeks和shiftDays会同时调整开始时间和结束时间**，保持任务持续时间不变\n   - 推迟用正数（shiftWeeks: 2），提前用负数（shiftWeeks: -1）",
   "   - 示例：\"将UI DESIGN分组中的任务全部退后2周\" → 对每个任务使用update_task，设置shiftWeeks: 2\n\n# 能力边界\n- 你可以创建、更新、删除任务和里程碑\n- 你可以查询项目信息\n- 你不能执行超出甘特图功能的操作\n- 当用户意图不明确时，你需要提出澄清问题\n\n# 复合指令处理规则（重要）\n- 当用户的一条指令包含多个操作时，必须在actions数组中返回所有相关的操作\n- 例如：\"创建分组XXX并添加三个里程碑\" → 返回4个actions（1个创建分组 + 3个创建里程碑）",
   "- 例如：\"创建里程碑分组OEM，分别创建三个节点在3月、4月、5月第一天\" → 返回4个actions\n- 执行顺序：先创建分组，再添加里程碑（bucketId使用新创建的分组名）\n\n# 支持的操作\n\n## 任务管理\n- add_task(title, startDate, dueDate, priority, status, description, bucketId) - 创建任务\n  * title: 任务名称（必填）\n  * startDate: 开始日期，格式 YYYY-MM-DD\n  * dueDate: 截止日期，格式 YYYY-MM-DD",
   "  * priority: 优先级（Urgent/Important/Normal/Low）\n  * status: 状态（NotStarted/InProgress/Completed）\n  * description: 任务描述\n  * bucketId: 分组 ID\n\n- add_milestone(title, date, description, bucketId) - 创建里程碑\n  * title: 里程碑名称（必填）\n  * date: 日期，格式 YYYY-MM-DD（必填）\n  * description: 描述",
   "  * bucketId: 分组名称（从上下文中的分组列表查找，优先使用里程碑类型的分组）\n  * **重要**：当用户说\"在XXX分组里添加\"时，必须使用已存在的XXX分组，不要创建新分组！\n\n- update_task(taskId, 要更新的字段...) - 更新任务\n  * taskId: 任务 ID（必填，从上下文中获取）\n  * 可更新字段：startDate, dueDate, progress(0-100), priority, status, title, newTitle\n  * shiftWeeks: 推迟周数（正数=推迟，负数=提前），会同时调整开始和结束时间",
   "  * shiftDays: 推迟天数（正数=推迟，负数=提前），会同时调整开始和结束时间\n  * **重要**：当用户说\"推迟X周\"、\"延后X周\"、\"提前X天\"时，使用shiftWeeks或shiftDays参数，不要只改startDate！\n  * 注意：批量更新多个任务时，必须为每个任务指定正确的 taskId\n\n- delete_task(taskId) - 删除任务\n  * taskId: 任务 ID（必填，从上下文中获取）\n\n- set_progress(taskId, progress) - 设置任务进度\n  * taskId: 任务 ID（必填，从上下文中获取）",
   "  * progress: 0-100 的数字\n\n## 分组管理\n- add_bucket(name, color, bucketType) - 创建分组\n  * name: 分组名称（必填）\n  * color: 颜色（可选，默认蓝色）\n  * bucketType: 分组类型（可选，默认为\"task\"）\n    - \"task\": 普通任务分组\n    - \"milestone\": 里程碑分组\n  * 当用户说\"里程碑分组\"、\"milestone分组\"时，bucketType必须设为\"milestone\"",
   "- update_bucket(bucketId, name, color) - 更新分组\n- delete_bucket(bucketName) - 删除分组\n  * bucketName: 分组名称（必填，使用用户提供的名称）\n\n## 依赖管理\n- add_dependency(taskId, dependsOnTaskId) - 添加依赖\n- remove_dependency(taskId, dependsOnTaskId) - 移除依赖\n\n## 视图操作\n- collapse_bucket(bucketId, bucketType, collapsed) - 折叠/展开分组",
   "  * bucketId: 分组名称（折叠单个分组时使用）\n  * bucketType: 分组类型（批量折叠时使用）\n    - \"milestone\": 所有里程碑分组\n    - \"task\": 所有任务分组\n    - \"all\": 所有分组\n  * collapsed: 是否折叠（true=折叠，false=展开，默认true）\n  * 用法1：折叠单个分组 → collapse_bucket(bucketId=\"OEM\", collapsed=true)",
   "  * 用法2：折叠所有里程碑分组 → collapse_bucket(bucketType=\"milestone\", collapsed=true)\n  * 用法3：展开所有分组 → collapse_bucket(bucketType=\"all\", collapsed=false)\n  * **关键词**：\"折叠\"、\"收起\"、\"隐藏\" → collapsed=true\n  * **关键词**：\"展开\"、\"打开\"、\"显示\" → collapsed=false\n\n## 查询操作\n- query(queryType) - 查询信息",
   "  * queryType: summary(概览) / tasks(任务列表) / buckets(分组) / milestones(里程碑)\n\n# 日期解析规则\n支持以下日期表达，统一输出为 YYYY-MM-DD 格式：\n- 今天/today\n- 明天/tomorrow\n- 下周一/next monday\n- 下周二/next tuesday\n- 下周三/next wednesday\n- 下周四/next thursday\n- 下周五/next friday\n- 下周六/next saturday\n- 下周日/next sunday\n- 3月15日/March 15（当年）",
   "- 2025年3月15日\n- 3天后/三天后\n- 下周/next week\n- 下个月/next month\n- 本月底\n- YYYY-MM-DD（直接使用）\n\n# 任务匹配规则\n1. **必须使用 taskId**：从上下文提供的任务列表中获取正确的任务 ID\n2. 任务 ID 格式为长字符串，在上下文中显示为 [ID前8位]\n3. **不要使用 title 进行匹配**：title 可能重复或不准确\n4. 批量操作时，为每个任务生成独立的 update_task action\n5. 如果用户说\"更新所有任务\"，需要遍历所有任务的 ID 并生成多个 action\n",
   "# 响应格式（必须是有效的 JSON）\n```json\n\x7b\n  \"thoughts\": \"简要的推理过程\",\n  \"actions\": [\n    \x7b\n      \"type\": \"操作类型\",\n      \"params\": \x7b\"参数名\": \"参数值\"\x7d,\n      \"description\": \"人类可读的操作描述\"\n    \x7d\n  ],\n  \"response\": \"给用户的友好回复（中文）\",\n  \"needs_clarification\": false,\n  \"clarification_questions\": []\n\x7d\n```\n\n# 输出验证规则",
   "1. 每个 action 必须包含 description 字段\n2. 日期必须是 YYYY-MM-DD 格式\n3. progress 必须是 0-100 的数字\n4. 不能返回空的 actions 数组（除非是纯查询）\n5. needs_clarification 为 true 时，必须提供 clarification_questions\n\n# Few-Shot 示例\n\n## 示例1: 创建任务\n用户: \"添加一个任务叫\x27API开发\x27，下周一开始，持续5天\"\n```json\n\x7b\n  \"thoughts\": \"用户要创建一个新任务，下周一开始，持续5天\",\n  \"actions\": [",
   "    \x7b\n      \"type\": \"add_task\",\n      \"params\": \x7b\n        \"title\": \"API开发\",\n        \"startDate\": \"2025-03-03\",\n        \"dueDate\": \"2025-03-07\",\n        \"status\": \"NotStarted\",\n        \"priority\": \"Normal\"\n      \x7d,\n      \"description\": \"创建任务\x27API开发\x27，3月3日开始，3月7日结束\"\n    \x7d\n  ],",
   "  \"response\": \"好的，我来创建任务\x27API开发\x27，从下周一（3月3日）开始，持续5天到3月7日。\",\n  \"needs_clarification\": false\n\x7d\n```\n\n## 示例2: 更新进度\n用户: \"把API开发进度改成50%\"\n```json\n\x7b\n  \"thoughts\": \"用户要更新任务进度，使用title匹配任务\",\n  \"actions\": [\n    \x7b\n      \"type\": \"set_progress\",\n      \"params\": \x7b\n        \"title\": \"API开发\",\n        \"progress\": 50",
   "      \x7d,\n      \"description\": \"将API开发进度更新为50%\"\n    \x7d\n  ],\n  \"response\": \"好的，已将API开发进度更新为50%。\",\n  \"needs_clarification\": false\n\x7d\n```\n\n## 示例3: 查询概览\n用户: \"显示项目概览\"\n```json\n\x7b\n  \"thoughts\": \"用户要查看项目整体情况\",\n  \"actions\": [\n    \x7b\n      \"type\": \"query\",\n      \"params\": \x7b\"queryType\": \"summary\"\x7d,",
   "      \"description\": \"查询项目概览\"\n    \x7d\n  ],\n  \"response\": \"让我为您查询项目概览。\",\n  \"needs_clarification\": false\n\x7d\n```\n\n## 示例4: 创建里程碑\n用户: \"创建里程碑\x27项目发布\x27在3月15日\"\n```json\n\x7b\n  \"thoughts\": \"用户要创建里程碑\",\n  \"actions\": [\n    \x7b\n      \"type\": \"add_milestone\",\n      \"params\": \x7b\n        \"title\": \"项目发布\",",
   "        \"date\": \"2025-03-15\"\n      \x7d,\n      \"description\": \"创建里程碑\x27项目发布\x27，日期3月15日\"\n    \x7d\n  ],\n  \"response\": \"好的，我来创建里程碑\x27项目发布\x27，日期定在3月15日。\",\n  \"needs_clarification\": false\n\x7d\n```\n\n## 示例4.1: 创建里程碑分组\n用户: \"添加里程碑分组，命名为demo car\"\n```json\n\x7b\n  \"thoughts\": \"用户要创建一个里程碑类型的分组，bucketType需要设为milestone\",\n  \"actions\": [",
   "    \x7b\n      \"type\": \"add_bucket\",\n      \"params\": \x7b\n        \"name\": \"demo car\",\n        \"bucketType\": \"milestone\"\n      \x7d,\n      \"description\": \"创建里程碑分组\x27demo car\x27\"\n    \x7d\n  ],\n  \"response\": \"好的，已成功创建里程碑分组\x27demo car\x27。\",\n  \"needs_clarification\": false\n\x7d\n```\n\n## 示例4.1.1: 创建里程碑分组（用户输入\"里程牌\"）",
   "用户: \"添加里程牌分组，命名为OEM Milestone\"\n```json\n\x7b\n  \"thoughts\": \"用户输入了\x27里程牌\x27，这是\x27里程碑\x27的常见拼写错误，仍然应该创建里程碑分组，bucketType设为milestone\",\n  \"actions\": [\n    \x7b\n      \"type\": \"add_bucket\",\n      \"params\": \x7b\n        \"name\": \"OEM Milestone\",\n        \"bucketType\": \"milestone\"\n      \x7d,",
   "      \"description\": \"创建里程碑分组\x27OEM Milestone\x27\"\n    \x7d\n  ],\n  \"response\": \"好的，已成功创建里程碑分组\x27OEM Milestone\x27。\",\n  \"needs_clarification\": false\n\x7d\n```\n\n## 示例4.1.2: 在现有里程碑分组中添加多个里程碑\n用户: \"在OEM里程碑分组里面添加三个节点：1. EP 3月1号 2. PTO 5月1号 3. SOP 8月30号\"\n```json\n\x7b",
   "  \"thoughts\": \"用户要在已存在的\x27OEM\x27里程碑分组中添加三个里程碑节点。从上下文的\x27所有分组\x27列表中找到标记为\x27(里程碑分组)\x27的\x27OEM\x27分组，然后创建三个里程碑，都指定到该分组。注意：上下文中的分组会显示类型，如\x27OEM(里程碑分组)\x27或\x27OEM(任务分组)\x27\",\n  \"actions\": [\n    \x7b\n      \"type\": \"add_milestone\",\n      \"params\": \x7b\n        \"title\": \"EP\",\n        \"date\": \"2025-03-01\",\n        \"bucketId\": \"OEM\"\n      \x7d,",
   "      \"description\": \"在OEM分组中创建里程碑EP，3月1日\"\n    \x7d,\n    \x7b\n      \"type\": \"add_milestone\",\n      \"params\": \x7b\n        \"title\": \"PTO\",\n        \"date\": \"2025-05-01\",\n        \"bucketId\": \"OEM\"\n      \x7d,\n      \"description\": \"在OEM分组中创建里程碑PTO，5月1日\"\n    \x7d,\n    \x7b\n      \"type\": \"add_milestone\",\n      \"params\": \x7b",
   "        \"title\": \"SOP\",\n        \"date\": \"2025-08-30\",\n        \"bucketId\": \"OEM\"\n      \x7d,\n      \"description\": \"在OEM分组中创建里程碑SOP，8月30日\"\n    \x7d\n  ],\n  \"response\": \"好的，我已在OEM里程碑分组中添加了三个里程碑：EP(3月1日)、PTO(5月1日)、SOP(8月30日)。\",\n  \"needs_clarification\": false\n\x7d\n```\n\n## 示例4.1.3: 创建里程碑分组并同时添加多个里程碑（一条指令多步操作）",
   "用户: \"创建一个里程碑分组OEM，分别创建三个节点在3月、4月、5月第一天，节点命名为月份名字\"\n```json\n\x7b\n  \"thoughts\": \"用户的指令包含两个动作：1)创建里程碑分组\x27OEM\x27，2)在该分组中添加三个里程碑(3月、4月、5月的第一天，命名为月份)。需要返回4个actions：1个创建分组，3个创建里程碑\",\n  \"actions\": [\n    \x7b\n      \"type\": \"add_bucket\",\n      \"params\": \x7b\n        \"name\": \"OEM\",\n        \"bucketType\": \"milestone\"\n      \x7d,",
   "      \"description\": \"创建里程碑分组\x27OEM\x27\"\n    \x7d,\n    \x7b\n      \"type\": \"add_milestone\",\n      \"params\": \x7b\n        \"title\": \"3月\",\n        \"date\": \"2025-03-01\",\n        \"bucketId\": \"OEM\"\n      \x7d,\n      \"description\": \"在OEM分组中创建里程碑\x273月\x27，3月1日\"\n    \x7d,\n    \x7b\n      \"type\": \"add_milestone\",\n      \"params\": \x7b",
   "        \"title\": \"4月\",\n        \"date\": \"2025-04-01\",\n        \"bucketId\": \"OEM\"\n      \x7d,\n      \"description\": \"在OEM分组中创建里程碑\x274月\x27，4月1日\"\n    \x7d,\n    \x7b\n      \"type\": \"add_milestone\",\n      \"params\": \x7b\n        \"title\": \"5月\",\n        \"date\": \"2025-05-01\",\n        \"bucketId\": \"OEM\"\n      \x7d,",
   "      \"description\": \"在OEM分组中创建里程碑\x275月\x27，5月1日\"\n    \x7d\n  ],\n  \"response\": \"好的，我来创建里程碑分组\x27OEM\x27，并在其中添加三个里程碑：3月(3月1日)、4月(4月1日)、5月(5月1日)。\",\n  \"needs_clarification\": false,\n  \"requiresConfirmation\": false\n\x7d\n```\n\n## 示例4.2: 删除分组\n用户: \"删除 demo car 分组\"\n```json\n\x7b\n  \"thoughts\": \"用户要删除名为\x27demo car\x27的分组\",\n  \"actions\": [",
   "    \x7b\n      \"type\": \"delete_bucket\",\n      \"params\": \x7b\n        \"bucketName\": \"demo car\"\n      \x7d,\n      \"description\": \"删除分组\x27demo car\x27\",\n      \"requiresConfirmation\": true\n    \x7d\n  ],\n  \"response\": \"我将删除分组\x27demo car\x27，请确认。\",\n  \"needs_clarification\": false\n\x7d\n```\n\n## 示例4.3: 推迟分组中所有任务的时间（重要）",
   "用户: \"将 UI DESIGN 分组中的任务，全部退后2周开始\"\n```json\n\x7b\n  \"thoughts\": \"用户要将\x27UI DESIGN\x27分组中的所有任务推迟2周。从上下文中找到该分组的所有任务，使用shiftWeeks参数同时调整开始和结束时间\",\n  \"actions\": [\n    \x7b\n      \"type\": \"update_task\",\n      \"params\": \x7b\n        \"taskId\": \"task_ui_001\",\n        \"shiftWeeks\": 2\n      \x7d,",
   "      \"description\": \"将\x27UI Design\x27任务推迟2周\"\n    \x7d,\n    \x7b\n      \"type\": \"update_task\",\n      \"params\": \x7b\n        \"taskId\": \"task_frontend_001\",\n        \"shiftWeeks\": 2\n      \x7d,\n      \"description\": \"将\x27前端开发\x27任务推迟2周\"\n    \x7d\n  ],\n  \"response\": \"好的，我将UI Design分组中的所有任务推迟2周，开始时间和结束时间都会相应调整。\",",
   "  \"needs_clarification\": false\n\x7d\n```\n\n## 示例5: 任务不明确时\n用户: \"把开发进度改成50%\"（有多个类似任务）\n```json\n\x7b\n  \"thoughts\": \"有多个相似任务，需要用户确认\",\n  \"actions\": [],\n  \"response\": \"我找到多个相似的任务，请问您要更新哪一个？\",\n  \"needs_clarification\": true,\n  \"clarification_questions\": [\n    \"1. API开发\",\n    \"2. 前端开发\",\n    \"3. 后端开发\"\n  ]\n\x7d\n```\n",
   "## 示例6: 添加依赖\n用户: \"让测试任务依赖于开发任务\"\n```json\n\x7b\n  \"thoughts\": \"用户要添加任务依赖关系\",\n  \"actions\": [\n    \x7b\n      \"type\": \"add_dependency\",\n      \"params\": \x7b\n        \"taskId\": \"测试\",\n        \"dependsOnTaskId\": \"开发\"\n      \x7d,\n      \"description\": \"添加依赖：测试依赖于开发\"\n    \x7d\n  ],\n  \"response\": \"好的，我来设置测试任务依赖于开发任务。\",",
   "  \"needs_clarification\": false\n\x7d\n```\n\n## 示例7: 删除任务（需要确认）\n用户: \"删除旧任务\"\n```json\n\x7b\n  \"thoughts\": \"用户要删除任务，这是危险操作\",\n  \"actions\": [\n    \x7b\n      \"type\": \"delete_task\",\n      \"params\": \x7b\n        \"taskId\": \"task_abc123\"\n      \x7d,\n      \"description\": \"删除任务\x27旧任务\x27\",\n      \"requiresConfirmation\": true\n    \x7d\n  ],",
   "  \"response\": \"我将删除任务\x27旧任务\x27，请确认。\",\n  \"needs_clarification\": false\n\x7d\n```\n\n## 示例8: 批量更新所有任务\n用户: \"将所有任务的名称更新为英文\"\n```json\n\x7b\n  \"thoughts\": \"用户要批量更新所有任务名称为英文\",\n  \"actions\": [\n    \x7b\n      \"type\": \"update_task\",\n      \"params\": \x7b\n        \"taskId\": \"task_001\",\n        \"title\": \"Requirement Analysis\"\n      \x7d,",
   "      \"description\": \"将\x27需求分析\x27更新为\x27Requirement Analysis\x27\"\n    \x7d,\n    \x7b\n      \"type\": \"update_task\",\n      \"params\": \x7b\n        \"taskId\": \"task_002\",\n        \"title\": \"UI Design\"\n      \x7d,\n      \"description\": \"将\x27UI 设计\x27更新为\x27UI Design\x27\"\n    \x7d,\n    \x7b\n      \"type\": \"update_task\",\n      \"params\": \x7b",
   "        \"taskId\": \"task_003\",\n        \"title\": \"Frontend Development\"\n      \x7d,\n      \"description\": \"将\x27前端开发\x27更新为\x27Frontend Development\x27\"\n    \x7d\n  ],\n  \"response\": \"我将把所有任务的名称更新为英文。\",\n  \"needs_clarification\": false\n\x7d\n```\n\n## 示例9: 折叠里程碑分组\n用户: \"将里程碑分组折叠起来\"\n```json\n\x7b",
   "  \"thoughts\": \"用户要折叠所有里程碑类型的分组，使用collapse_bucket操作，bucketType设为milestone\",\n  \"actions\": [\n    \x7b\n      \"type\": \"collapse_bucket\",\n      \"params\": \x7b\n        \"bucketType\": \"milestone\",\n        \"collapsed\": true\n      \x7d,\n      \"description\": \"折叠所有里程碑分组\"\n    \x7d\n  ],\n  \"response\": \"好的，已将所有里程碑分组折叠起来。\",",
   "  \"needs_clarification\": false\n\x7d\n```\n\n## 示例10: 展开所有分组\n用户: \"展开所有分组\"\n```json\n\x7b\n  \"thoughts\": \"用户要展开所有分组，使用collapse_bucket操作，bucketType设为all，collapsed设为false\",\n  \"actions\": [\n    \x7b\n      \"type\": \"collapse_bucket\",\n      \"params\": \x7b\n        \"bucketType\": \"all\",\n        \"collapsed\": false\n      \x7d,",
   "      \"description\": \"展开所有分组\"\n    \x7d\n  ],\n  \"response\": \"好的，已展开所有分组。\",\n  \"needs_clarification\": false\n\x7d\n```\n\n## 示例11: 折叠单个分组\n用户: \"把OEM分组收起来\"\n```json\n\x7b\n  \"thoughts\": \"用户要折叠名为OEM的单个分组，使用collapse_bucket操作，指定bucketId\",\n  \"actions\": [\n    \x7b\n      \"type\": \"collapse_bucket\",\n      \"params\": \x7b",
   "        \"bucketId\": \"OEM\",\n        \"collapsed\": true\n      \x7d,\n      \"description\": \"折叠OEM分组\"\n    \x7d\n  ],\n  \"response\": \"好的，已将OEM分组折叠。\",\n  \"needs_clarification\": false\n\x7d\n```\n\n# 重要提醒\n1. 始终用中文回复\n2. 每个 action 必须有 description\n3. 日期格式必须是 YYYY-MM-DD\n4. 危险操作（delete_*）需要在 action 中标记 requiresConfirmation: true",
   "5. 当意图不明确时，使用 needs_clarification 请求澄清\n6. **批量操作必须使用正确的 taskId**：从上下文任务列表中复制完整的任务 ID\n"]

/-- Join character-list segments with a newline between consecutive segments. -/
def joinNl : List (List Char) → List Char
  | [] => []
  | [x] => x
  | x :: y :: xs => x ++ Char.ofNat 10 :: joinNl (y :: xs)

/-- The fixed instruction template, as one string. -/
def system_prompt : String := String.mk (joinNl (systemPromptSegs.map String.data))

/-- Python `str.replace(pat, rep)` on character lists for a non-empty pattern:
leftmost, non-overlapping occurrences; fuel is the input length (each step
consumes at least one character when the pattern is non-empty). -/
def replaceFuel (pat rep : List Char) : Nat → List Char → List Char
  | 0, s => s
  | _ + 1, [] => []
  | fuel + 1, c :: cs =>
    if startsWithL pat (c :: cs) then
      rep ++ replaceFuel pat rep fuel (List.drop pat.length (c :: cs))
    else c :: replaceFuel pat rep fuel cs

def pyReplaceL (pat rep s : List Char) : List Char := replaceFuel pat rep s.length s

/-- Python `str.replace` on strings. -/
def pyReplace (s pat rep : String) : String :=
  String.mk (pyReplaceL pat.data rep.data s.data)

/-- The system message sent to the backend (main.py line 930): the template
with every occurrence of the literal `2025-` rewritten to the current year. -/
def assembledSystemMessage (current_year : Nat) : String :=
  pyReplace system_prompt "2025-" (toString current_year ++ "-")


-- ===== helper lemmas =====

theorem sEq_refl (a : String) : sEq a a = true := by
  simp [sEq]

theorem dictGet_dictSet_same (fs : List (String × JValue)) (k : String) (v : JValue) :
    dictGet (dictSet fs k v) k = some v := by
  unfold dictSet
  by_cases h : hasKey fs k = true
  · simp only [h, if_true]
    induction fs with
    | nil => simp [hasKey, dictGet] at h
    | cons p rest ih =>
      by_cases hp : sEq p.fst k = true
      · simp [dictGet, List.find?, hp]
      · simp only [List.map_cons, hp, if_false, Bool.false_eq_true]
        have hrest : hasKey rest k = true := by
          simp [hasKey, dictGet, List.find?, hp] at h ⊢
          simpa [hp] using h
        have := ih hrest
        simp [dictGet, List.find?, hp] at this ⊢
        exact this
  · simp only [h, if_false, Bool.false_eq_true]
    have hnone : List.find? (fun p => sEq p.fst k) fs = none := by
      rcases hf : List.find? (fun p => sEq p.fst k) fs with _ | p
      · exact hf
      · exfalso
        exact h (by simp [hasKey, dictGet, hf])
    simp [dictGet, List.find?_append, hnone, List.find?, sEq_refl]

theorem sEq_eq {a b : String} (h : sEq a b = true) : a = b := by
  obtain ⟨la⟩ := a
  obtain ⟨lb⟩ := b
  simp only [sEq] at h
  exact congrArg String.mk (by exact_mod_cast eq_of_beq h)

theorem string_data_append (a b : String) : (a ++ b).data = a.data ++ b.data := by
  obtain ⟨la⟩ := a
  obtain ⟨lb⟩ := b
  rfl

theorem dictGet_dictSet_ne (fs : List (String × JValue)) (k : String) (v : JValue) (k' : String)
    (hne : k ≠ k') : dictGet (dictSet fs k v) k' = dictGet fs k' := by
  unfold dictSet
  by_cases h : hasKey fs k = true
  · simp only [h, if_true]
    clear h
    induction fs with
    | nil => rfl
    | cons p rest ih =>
      by_cases hp' : sEq p.fst k' = true
      · have hpk : sEq p.fst k = false := by
          rcases hb : sEq p.fst k with _ | _
          · rfl
          · exact absurd ((sEq_eq hb).symm.trans (sEq_eq hp')) hne
        simp [dictGet, List.find?, hp', hpk]
      · by_cases hpk : sEq p.fst k = true
        · simp only [List.map_cons, hpk, if_true]
          simp only [dictGet, List.find?, hp', Bool.false_eq_true, if_false]
          simpa [dictGet, List.find?] using ih
        · simp only [List.map_cons, hpk, if_false, Bool.false_eq_true]
          simp only [dictGet, List.find?, hp', if_false]
          simpa [dictGet, List.find?] using ih
  · simp only [h, if_false, Bool.false_eq_true]
    have hkk' : sEq k k' = false := by
      rcases hb : sEq k k' with _ | _
      · rfl
      · exact absurd (sEq_eq hb) hne
    simp only [dictGet, List.find?_append, List.find?, hkk']
    simp [Option.or_none]

theorem coerceStr_eq_ok (v : JValue) (str : String) : coerceStr v = .ok str ↔ v = .str str := by
  cases v <;> simp [coerceStr]

theorem synthesized_desc_ne_empty (s : String) : ("执行操作: " ++ s) ≠ "" := by
  intro hcon
  have h2 := congrArg String.data hcon
  rw [string_data_append] at h2
  exact List.noConfusion (show Char.mk 25191 (by decide) :: ("行操作: ".data ++ s.data) = [] from h2)

theorem processEntry_dangerous (e : JValue) (a : AgentAction) (d : Bool)
    (hd : dangerousEntry e = true)
    (h : processEntry e = .ok (a, d)) :
    a.requiresConfirmation = true ∧ d = true := by
  cases e with
  | null => simp [dangerousEntry] at hd
  | bool b => simp [dangerousEntry] at hd
  | num n => simp [dangerousEntry] at hd
  | str s => simp [dangerousEntry] at hd
  | arr xs => simp [dangerousEntry] at hd
  | obj fields0 =>
  unfold processEntry at h
  simp only [hd, if_true, bind, Except.bind] at h
  rw [dictGet_dictSet_same] at h
  simp only [coerceBool] at h
  repeat' split at h
  all_goals simp_all [Except.ok.injEq, Prod.mk.injEq]
  all_goals obtain ⟨ha, hd2⟩ := h
  all_goals subst ha
  all_goals simp

theorem buildActions_error (entries : List JValue) (e : JValue) (msg : String)
    (he : e ∈ entries) (hb : processEntry e = .error msg) :
    ∃ m, buildActions entries = .error m := by
  induction entries with
  | nil => cases he
  | cons x rest ih =>
    rcases List.mem_cons.mp he with rfl | he2
    · exact ⟨msg, by simp [buildActions, hb, bind, Except.bind]⟩
    · rcases hpe : processEntry x with m2 | ad
      · exact ⟨m2, by simp [buildActions, hpe, bind, Except.bind]⟩
      · obtain ⟨m, hm⟩ := ih he2
        exact ⟨m, by simp [buildActions, hpe, hm, bind, Except.bind]⟩

theorem processTop_ok (fields : List (String × JValue)) (r : AgentResponse)
    (h : processTop fields = .ok r) :
    r.success = true ∧
    (1 < r.actions.length → r.requiresConfirmation = true) ∧
    (dictGet fields "requiresConfirmation" = some (.bool true) → r.requiresConfirmation = true) := by
  unfold processTop at h
  simp only [bind, Except.bind] at h
  repeat' split at h
  all_goals simp_all [Except.ok.injEq]
  all_goals subst h
  all_goals simp_all [coerceBool]
  all_goals (intro hh; subst hh; simp_all)

-- ===== claim theorems (pipeline) =====

/-- C1: every raw backend action entry whose `type` is one of delete_task,
delete_bucket or remove_dependency yields an emitted action with
`requiresConfirmation = true`, regardless of whether the raw entry carried
that flag or omitted it (the action loop overwrites it, main.py
lines 974-978). -/
theorem claim_c1_dangerous_requires_confirmation
    (entries : List JValue) (acts : List AgentAction) (dang : Bool)
    (h : buildActions entries = .ok (acts, dang)) :
    acts.length = entries.length ∧
    ∀ p ∈ entries.zip acts, dangerousEntry p.1 = true → p.2.requiresConfirmation = true := by
  induction entries generalizing acts dang with
  | nil =>
    simp [buildActions, Except.ok.injEq] at h
    simp [← h.1]
  | cons e rest ih =>
    simp only [buildActions, bind, Except.bind] at h
    rcases hpe : processEntry e with msg | ad
    · rw [hpe] at h; simp at h
    · rw [hpe] at h
      rcases hba : buildActions rest with msg | asds
      · rw [hba] at h; simp at h
      · rw [hba] at h
        obtain ⟨a, d⟩ := ad
        obtain ⟨as, ds⟩ := asds
        simp only [Except.ok.injEq, Prod.mk.injEq] at h
        obtain ⟨h1, h2⟩ := h
        subst h1
        obtain ⟨ihl, ihz⟩ := ih as ds hba
        refine ⟨by simp [ihl], ?_⟩
        intro p hp hdp
        rcases List.mem_cons.mp (by simpa [List.zip] using hp) with rfl | htail
        · exact (processEntry_dangerous e a d hdp hpe).1
        · exact ihz p htail hdp

/-- C1 witness: a concrete single delete_task entry without the flag. -/
theorem claim_c1_witness :
    ([({ type := "delete_task", params := [], description := "执行操作: delete_task",
         requiresConfirmation := true } : AgentAction)].length
       = [JValue.obj [("type", JValue.str "delete_task")]].length) ∧
    ∀ p ∈ [JValue.obj [("type", JValue.str "delete_task")]].zip
        [({ type := "delete_task", params := [], description := "执行操作: delete_task",
            requiresConfirmation := true } : AgentAction)],
      dangerousEntry p.1 = true → p.2.requiresConfirmation = true :=
  claim_c1_dangerous_requires_confirmation
    [JValue.obj [("type", JValue.str "delete_task")]]
    [{ type := "delete_task", params := [], description := "执行操作: delete_task",
       requiresConfirmation := true }] true (by rfl)

/-- C2: whenever the parser succeeds and the parsed action list has more than
one element, the returned result has `requiresConfirmation = true`,
independent of the individual action flags and kinds (main.py
lines 982-993). -/
theorem claim_c2_batch_requires_confirmation (raw : String) (parsed : Option JValue)
    (hs : (processParse raw parsed).success = true)
    (hl : 1 < (processParse raw parsed).actions.length) :
    (processParse raw parsed).requiresConfirmation = true := by
  cases parsed with
  | none => simp [processParse, jsonErrorResult] at hs
  | some v =>
    cases v with
    | obj fields =>
      simp only [processParse] at hs hl ⊢
      rcases hpt : processTop fields with e | r
      · simp only [hpt] at hs; simp [genericErrorResult] at hs
      · simp only [hpt] at hs hl ⊢
        exact (processTop_ok fields r hpt).2.1 hl
    | null => simp [processParse, genericErrorResult] at hs
    | bool b => simp [processParse, genericErrorResult] at hs
    | num n => simp [processParse, genericErrorResult] at hs
    | str s => simp [processParse, genericErrorResult] at hs
    | arr xs => simp [processParse, genericErrorResult] at hs

/-- C2 witness: two harmless add_task actions still force the flag. -/
theorem claim_c2_witness :
    (processParse "r" (some (.obj [("actions",
        .arr [.obj [("type", .str "add_task"), ("description", .str "a")],
              .obj [("type", .str "add_task"), ("description", .str "b")]])]))).requiresConfirmation
      = true :=
  claim_c2_batch_requires_confirmation "r"
    (some (.obj [("actions",
        .arr [.obj [("type", .str "add_task"), ("description", .str "a")],
              .obj [("type", .str "add_task"), ("description", .str "b")]])]))
    (by rfl) (by decide)

/-- C10: if the parsed top-level JSON object carries
`requiresConfirmation: true`, the returned result has
`requiresConfirmation = true` even when it succeeds with at most one
non-dangerous action (the top-level flag is OR-ed in, main.py line 992). -/
theorem claim_c10_toplevel_flag (raw : String) (fields : List (String × JValue))
    (hrc : dictGet fields "requiresConfirmation" = some (.bool true))
    (hs : (processParse raw (some (.obj fields))).success = true) :
    (processParse raw (some (.obj fields))).requiresConfirmation = true := by
  simp only [processParse] at hs ⊢
  rcases hpt : processTop fields with e | r
  · simp only [hpt] at hs; simp [genericErrorResult] at hs
  · simp only [hpt] at hs ⊢
    exact (processTop_ok fields r hpt).2.2 hrc

/-- C10 witness: an empty action list with the top-level flag set. -/
theorem claim_c10_witness :
    (processParse "r" (some (.obj [("requiresConfirmation", .bool true)]))).requiresConfirmation
      = true :=
  claim_c10_toplevel_flag "r" [("requiresConfirmation", .bool true)] (by rfl) (by rfl)

/-- C3 counterexample: a reply whose actions array holds one well-formed
add_task entry and one entry missing `type` does NOT succeed with the
well-formed action kept; pydantic validation raises, the generic handler
runs, and the whole batch fails with no actions — refuting the claim that
the malformed entry is silently dropped. -/
theorem claim_c3_counterexample :
    (processParse "r" (some (.obj [("actions",
        .arr [.obj [("type", .str "add_task"), ("description", .str "创建任务")],
              .obj [("params", .obj [])]]),
      ("response", .str "done")]))).success = false ∧
    (processParse "r" (some (.obj [("actions",
        .arr [.obj [("type", .str "add_task"), ("description", .str "创建任务")],
              .obj [("params", .obj [])]]),
      ("response", .str "done")]))).actions.length = 0 := by
  constructor <;> rfl

/-- C3 amended: an actions array containing an entry that cannot be coerced
into the action shape makes the entire parse fail: the pipeline returns
`success = false` with an empty action list (well-formed siblings are
discarded, not preserved). -/
theorem claim_c3_amended (raw : String) (fields : List (String × JValue))
    (entries : List JValue) (e : JValue) (msg : String)
    (hact : dictGetD fields "actions" (.arr []) = .arr entries)
    (he : e ∈ entries) (hbad : processEntry e = .error msg) :
    (processParse raw (some (.obj fields))).success = false ∧
    (processParse raw (some (.obj fields))).actions = [] := by
  obtain ⟨m, hm⟩ := buildActions_error entries e msg he hbad
  simp only [processParse]
  rcases hpt : processTop fields with e2 | r
  · simp [genericErrorResult]
  · exfalso
    unfold processTop at hpt
    rw [hact] at hpt
    simp only [iterActions, bind, Except.bind, hm] at hpt
    exact Except.noConfusion hpt

/-- C3 amended witness: the amended statement applied to a concrete batch
with one well-formed and one type-less entry. -/
theorem claim_c3_amended_witness :
    (processParse "r" (some (.obj [("actions",
        .arr [.obj [("type", .str "add_task"), ("description", .str "ok")],
              .obj []])]))).success = false ∧
    (processParse "r" (some (.obj [("actions",
        .arr [.obj [("type", .str "add_task"), ("description", .str "ok")],
              .obj []])]))).actions = [] :=
  claim_c3_amended "r"
    [("actions", .arr [.obj [("type", .str "add_task"), ("description", .str "ok")], .obj []])]
    [.obj [("type", .str "add_task"), ("description", .str "ok")], .obj []]
    (.obj []) "validation error: field required: type"
    (by rfl) (by simp) (by rfl)

/-- C4 counterexample: a successful parse of a reply with
`needs_clarification: true` and no `clarification_questions` yields a result
with `needsClarification = true` and an EMPTY question list, refuting the
claimed invariant (nothing enforces it on the success path; the over-length
input rejection at main.py lines 1073-1079 violates it too). -/
theorem claim_c4_counterexample :
    (processParse "ok" (some (.obj [("response", .str "哪一个任务？"),
        ("needs_clarification", .bool true)]))).needs_clarification = true ∧
    (processParse "ok" (some (.obj [("response", .str "哪一个任务？"),
        ("needs_clarification", .bool true)]))).clarification_questions = [] := by
  constructor <;> rfl

/-- C4 amended: on the parser failure paths (structural parse failure and
the generic exception handler) `needsClarification = true` always comes with
a non-empty `clarificationQuestions` list; only the success pass-through and
the over-length rejection can violate the original invariant. -/
theorem claim_c4_amended (raw : String) (parsed : Option JValue)
    (hs : (processParse raw parsed).success = false)
    (hn : (processParse raw parsed).needs_clarification = true) :
    (processParse raw parsed).clarification_questions ≠ [] := by
  cases parsed with
  | none => simp [processParse, jsonErrorResult, fallbackSuggestion]
  | some v =>
    cases v with
    | obj fields =>
      simp only [processParse] at hs ⊢
      rcases hpt : processTop fields with e | r
      · simp [genericErrorResult]
      · simp only [hpt] at hs ⊢
        rw [(processTop_ok fields r hpt).1] at hs
        cases hs
    | null => simp [processParse, genericErrorResult]
    | bool b => simp [processParse, genericErrorResult]
    | num n => simp [processParse, genericErrorResult]
    | str s => simp [processParse, genericErrorResult]
    | arr xs => simp [processParse, genericErrorResult]

/-- C4 amended witness: the amended statement at a concrete parse failure. -/
theorem claim_c4_amended_witness :
    (processParse "garbled" none).clarification_questions ≠ [] :=
  claim_c4_amended "garbled" none (by rfl) (by rfl)

/-- C5 counterexample: a raw entry that explicitly supplies
`description: ""` is emitted with an empty description — synthesis happens
only when the key is absent, refuting the claim that no emitted action ever
has an empty description. -/
theorem claim_c5_counterexample :
    (processParse "r" (some (.obj [("actions",
        .arr [.obj [("type", .str "add_task"), ("description", .str "")]]),
      ("response", .str "ok")]))).success = true ∧
    ((processParse "r" (some (.obj [("actions",
        .arr [.obj [("type", .str "add_task"), ("description", .str "")]]),
      ("response", .str "ok")]))).actions.map (fun a => a.description)) = [""] := by
  constructor <;> rfl

/-- C5 amended: an emitted action has an empty description only when the raw
backend entry explicitly supplied an empty description string; when the key
is absent a non-empty description is synthesized from the kind. -/
theorem claim_c5_amended (e : JValue) (a : AgentAction) (d : Bool)
    (h : processEntry e = .ok (a, d)) (hdesc : a.description = "") :
    ∃ fields, e = .obj fields ∧ dictGet fields "description" = some (.str "") := by
  cases e with
  | null => simp [processEntry] at h
  | bool b => simp [processEntry] at h
  | num n => simp [processEntry] at h
  | str s => simp [processEntry] at h
  | arr xs => simp [processEntry] at h
  | obj fields0 =>
    refine ⟨fields0, rfl, ?_⟩
    unfold processEntry at h
    simp only [bind, Except.bind] at h
    by_cases hk : hasKey fields0 "description" = true
    · -- description supplied by the backend: the bound value must be the string a.description
      simp only [hk, if_true] at h
      by_cases hdang : dangerousEntry (JValue.obj fields0) = true
      · simp only [hdang, if_true] at h
        rw [dictGet_dictSet_ne fields0 "requiresConfirmation" (JValue.bool true) "type" (by decide),
            dictGet_dictSet_ne fields0 "requiresConfirmation" (JValue.bool true) "description" (by decide),
            dictGet_dictSet_ne fields0 "requiresConfirmation" (JValue.bool true) "params" (by decide),
            dictGet_dictSet_same fields0 "requiresConfirmation" (JValue.bool true)] at h
        repeat' split at h
        all_goals simp_all [coerceStr_eq_ok, Except.ok.injEq, Prod.mk.injEq]
        all_goals (obtain ⟨ha, -⟩ := h; subst ha; simpa using hdesc)
      · simp only [hdang, if_false, Bool.false_eq_true] at h
        repeat' split at h
        all_goals simp_all [coerceStr_eq_ok, Except.ok.injEq, Prod.mk.injEq]
        all_goals (obtain ⟨ha, -⟩ := h; subst ha; simpa using hdesc)
    · -- description absent: it is synthesized and non-empty, contradicting hdesc
      simp only [hk, if_false, Bool.false_eq_true] at h
      exfalso
      by_cases hdang : dangerousEntry (JValue.obj fields0) = true
      · simp only [hdang, if_true] at h
        rw [dictGet_dictSet_ne _ "requiresConfirmation" (JValue.bool true) "description" (by decide),
            dictGet_dictSet_same] at h
        repeat' split at h
        all_goals simp_all [coerceStr_eq_ok, Except.ok.injEq, Prod.mk.injEq]
        all_goals (obtain ⟨ha, -⟩ := h; subst ha; simp_all [synthesized_desc_ne_empty])
      · simp only [hdang, if_false, Bool.false_eq_true] at h
        rw [dictGet_dictSet_same] at h
        repeat' split at h
        all_goals simp_all [coerceStr_eq_ok, Except.ok.injEq, Prod.mk.injEq]
        all_goals (obtain ⟨ha, -⟩ := h; subst ha; simp_all [synthesized_desc_ne_empty])

/-- C5 amended witness: the amended statement at the concrete
empty-description entry. -/
theorem claim_c5_amended_witness :
    ∃ fields, (JValue.obj [("type", JValue.str "add_task"), ("description", JValue.str "")])
        = JValue.obj fields ∧
      dictGet fields "description" = some (.str "") :=
  claim_c5_amended (.obj [("type", .str "add_task"), ("description", .str "")])
    { type := "add_task", params := [], description := "", requiresConfirmation := false } false
    (by rfl) (by rfl)

/-- C6: for every raw backend text whose extracted payload fails structural
JSON parsing, the parser returns `success = false`,
`needsClarification = true`, the canned non-empty suggestion list, and a
message embedding the (stripped) raw reply truncated to at most 500
characters plus a three-character truncation marker (503 total). -/
theorem claim_c6_parse_failure_fallback (raw : String) :
    (processParse raw none).success = false ∧
    (processParse raw none).needs_clarification = true ∧
    (processParse raw none).clarification_questions = [fallbackSuggestion] ∧
    (processParse raw none).message =
      "AI 返回了非结构化内容，请重新描述需求。\n\nAI 原始回复: " ++ fallbackReply raw ∧
    pyLen (fallbackReply raw) ≤ 503 := by
  refine ⟨rfl, rfl, rfl, rfl, ?_⟩
  unfold fallbackReply
  simp only []
  split
  · simp [pyLen, pyTake, string_data_append]
  · rename_i hshort
    simp only [pyLen] at hshort ⊢
    omega

theorem nextWeekday_spec (ref w : Nat) (h1 : 1 ≤ ref) (h2 : ref + 7 ≤ maxOrdinal) (hw : w < 7) :
    ∃ o : Nat, nextWeekdayResolve w ref = .ok (fmtOrd o) ∧ ref < o ∧ o ≤ ref + 7 ∧
      weekdayOf o = w ∧ ∀ o2, ref < o2 → weekdayOf o2 = w → o ≤ o2 := by
  have h2' : ref + 7 ≤ 3652059 := h2
  unfold nextWeekdayResolve mkOrdStr weekdayOf maxOrdinal
  simp only []
  split
  · rename_i hda
    split
    · rename_i hbound
      refine ⟨((ref : Int) + ((w : Int) - ((ref + 6) % 7 : Nat) + 7)).toNat, ?_, ?_, ?_, ?_, ?_⟩
      · congr 1
      · omega
      · omega
      · omega
      · intro o2 ho1 ho2
        omega
    · rename_i hbound
      exfalso
      omega
  · rename_i hda
    split
    · rename_i hbound
      refine ⟨((ref : Int) + ((w : Int) - ((ref + 6) % 7 : Nat))).toNat, ?_, ?_, ?_, ?_, ?_⟩
      · congr 1
      · omega
      · omega
      · omega
      · intro o2 ho1 ho2
        omega
    · rename_i hbound
      exfalso
      omega

theorem nextWeek_spec (ref : Nat) (h1 : 1 ≤ ref) (h2 : ref + 7 ≤ maxOrdinal) :
    ∃ o : Nat, nextWeekResolve ref = .ok (fmtOrd o) ∧ ref < o ∧ o ≤ ref + 7 ∧
      weekdayOf o = 0 ∧ (weekdayOf ref = 0 → o = ref + 7) := by
  have h2' : ref + 7 ≤ 3652059 := h2
  unfold nextWeekResolve mkOrdStr weekdayOf maxOrdinal
  simp only []
  split
  · rename_i hmon
    split
    · rename_i hbound
      refine ⟨((ref : Int) + 7).toNat, ?_, ?_, ?_, ?_, ?_⟩
      · congr 1
      · omega
      · omega
      · simp only [beq_iff_eq] at hmon
        omega
      · intro _
        omega
    · rename_i hbound
      exfalso
      omega
  · rename_i hmon
    split
    · rename_i hbound
      refine ⟨((ref : Int) + (0 - ((ref + 6) % 7 : Nat) + 7)).toNat, ?_, ?_, ?_, ?_, ?_⟩
      · congr 1
      · simp only [beq_iff_eq] at hmon
        omega
      · omega
      · simp only [beq_iff_eq] at hmon
        omega
      · intro hm
        exact absurd hm (by simpa using hmon)
    · rename_i hbound
      exfalso
      omega

/-- C7: for every reference date (any day whose following week stays within
the supported calendar range), each named-next-weekday token of both locales
resolves to the next occurrence of that weekday strictly after the reference
date — never the reference date itself — and the 下周 / next week tokens
resolve to the Monday strictly after the reference date, a full 7 days ahead
when the reference date is itself a Monday. -/
theorem claim_c7_next_weekday_strict (ref : Nat) (h1 : 1 ≤ ref) (h2 : ref + 7 ≤ maxOrdinal) :
    (∀ tok w, (tok, w) ∈ weekday_map →
      ∃ o : Nat, calculateDate tok ref = .ok (some (fmtOrd o)) ∧ ref < o ∧ o ≤ ref + 7 ∧
        weekdayOf o = w ∧ ∀ o2, ref < o2 → weekdayOf o2 = w → o ≤ o2) ∧
    (∀ tok, tok ∈ ["下周", "next week"] →
      ∃ o : Nat, calculateDate tok ref = .ok (some (fmtOrd o)) ∧ ref < o ∧ o ≤ ref + 7 ∧
        weekdayOf o = 0 ∧ (weekdayOf ref = 0 → o = ref + 7)) := by
  have step : ∀ w : Nat, w < 7 → ∀ tok : String,
      calculateDate tok ref = (nextWeekdayResolve w ref).map some →
      ∃ o : Nat, calculateDate tok ref = .ok (some (fmtOrd o)) ∧ ref < o ∧ o ≤ ref + 7 ∧
        weekdayOf o = w ∧ ∀ o2, ref < o2 → weekdayOf o2 = w → o ≤ o2 := by
    intro w hw tok hc
    obtain ⟨o, ho, hlt, hle, hwk, hmin⟩ := nextWeekday_spec ref w h1 h2 hw
    exact ⟨o, by rw [hc, ho]; rfl, hlt, hle, hwk, hmin⟩
  constructor
  · intro tok w hmem
    fin_cases hmem
    all_goals first
      | exact step 0 (by norm_num) _ rfl
      | exact step 1 (by norm_num) _ rfl
      | exact step 2 (by norm_num) _ rfl
      | exact step 3 (by norm_num) _ rfl
      | exact step 4 (by norm_num) _ rfl
      | exact step 5 (by norm_num) _ rfl
      | exact step 6 (by norm_num) _ rfl
  · intro tok hmem
    obtain ⟨o, ho, hlt, hle, hwk, hmon⟩ := nextWeek_spec ref h1 h2
    simp only [List.mem_cons, List.not_mem_nil, or_false] at hmem
    rcases hmem with rfl | rfl
    · refine ⟨o, ?_, hlt, hle, hwk, hmon⟩
      rw [show calculateDate "下周" ref = (nextWeekResolve ref).map some from rfl, ho]
      rfl
    · refine ⟨o, ?_, hlt, hle, hwk, hmon⟩
      rw [show calculateDate "next week" ref = (nextWeekResolve ref).map some from rfl, ho]
      rfl

/-- C7 witness: next monday from Wednesday 2025-01-01 (ordinal 739252). -/
theorem claim_c7_witness :
    ∃ o : Nat, calculateDate "next monday" 739252 = .ok (some (fmtOrd o)) ∧ 739252 < o ∧
      o ≤ 739252 + 7 ∧ weekdayOf o = 0 ∧ ∀ o2, 739252 < o2 → weekdayOf o2 = 0 → o ≤ o2 :=
  (claim_c7_next_weekday_strict 739252 (by norm_num) (by norm_num [maxOrdinal])).1 "next monday" 0
    (by simp [weekday_map])

theorem map_some_error {α : Type} (x : Except CalError α) (err : CalError)
    (h : x.map some = .error err) : x = .error err := by
  cases x <;> simp_all [Except.map]

theorem mkOrdStr_error (o : Int) (err : CalError) (h : mkOrdStr o = .error err) :
    ∃ o2, err = .overflowOrdinal o2 ∧ (3652059 : Int) < o2 := by
  unfold mkOrdStr maxOrdinal at h
  split at h
  · exact Except.noConfusion h
  · rename_i hgt
    refine ⟨o, by injection h with h2; exact h2.symm, by omega⟩

theorem nextWeekdayResolve_error (w ref : Nat) (err : CalError)
    (h : nextWeekdayResolve w ref = .error err) :
    ∃ o2, err = .overflowOrdinal o2 ∧ (3652059 : Int) < o2 :=
  mkOrdStr_error _ _ h

theorem nextWeekResolve_error (ref : Nat) (err : CalError)
    (h : nextWeekResolve ref = .error err) :
    ∃ o2, err = .overflowOrdinal o2 ∧ (3652059 : Int) < o2 :=
  mkOrdStr_error _ _ h

theorem nextMonthResolve_error (ref : Nat) (err : CalError)
    (h : nextMonthResolve ref = .error err) :
    ∃ y, err = .badYear y ∧ 9999 < y := by
  unfold nextMonthResolve at h
  repeat' split at h
  all_goals first
    | exact Except.noConfusion h
    | (rename_i hy; refine ⟨_, by injection h with h2; exact h2.symm, by omega⟩)

theorem endOfMonthResolve_error (ref : Nat) (err : CalError)
    (h : endOfMonthResolve ref = .error err) :
    ∃ y, err = .badYear y ∧ 9999 < y := by
  unfold endOfMonthResolve at h
  repeat' split at h
  all_goals first
    | exact Except.noConfusion h
    | (rename_i hy; refine ⟨_, by injection h with h2; exact h2.symm, by omega⟩)

/-- C9 counterexample: the resolver is not total — on input 100000000天后 the
matched days-later rule adds 100000000 days to the reference date
(2025-01-01, ordinal 739252), leaving the supported calendar range, which in
Python raises OverflowError out of `_calculate_date`. -/
theorem claim_c9_counterexample :
    calculateDate "100000000天后" 739252 = .error (.overflowOrdinal 100739252) := by rfl

set_option maxRecDepth 8192 in
/-- C9 amended: the only exceptions the resolver can raise are out-of-range
dates — an ordinal past year 9999 from a timedelta addition, or a
constructed year above 9999 — and when no resolution rule matches the input
it returns unresolved (None) without raising. -/
theorem claim_c9_amended (expr : String) (ref : Nat) :
    (∀ err, calculateDate expr ref = .error err →
      (∃ o, err = .overflowOrdinal o ∧ (3652059 : Int) < o) ∨
      (∃ y, err = .badYear y ∧ 9999 < y)) ∧
    (ruleMatches expr ref = false → calculateDate expr ref = .ok none) := by
  constructor
  · intro err h
    unfold calculateDate at h
    dsimp only [] at h
    split at h
    · exact Except.noConfusion h
    split at h
    · exact Or.inl (mkOrdStr_error _ _ (map_some_error _ _ h))
    split at h
    · exact Or.inl (nextWeekdayResolve_error _ _ _ (map_some_error _ _ h))
    split at h
    · exact Or.inl (nextWeekResolve_error _ _ (map_some_error _ _ h))
    split at h
    · exact Or.inr (nextMonthResolve_error _ _ (map_some_error _ _ h))
    split at h
    · exact Or.inr (endOfMonthResolve_error _ _ (map_some_error _ _ h))
    split at h
    · exact Or.inl (mkOrdStr_error _ _ (map_some_error _ _ h))
    split at h
    · exact Except.noConfusion h
    split at h
    · exact Except.noConfusion h
    split at h
    · exact Except.noConfusion h
    split at h
    · exact Except.noConfusion h
    exact Except.noConfusion h
  · intro hrm
    unfold ruleMatches at hrm
    dsimp only [] at hrm
    simp only [Bool.or_eq_false_iff] at hrm
    obtain ⟨⟨⟨⟨⟨⟨⟨⟨⟨⟨h1, h2⟩, h3⟩, h4⟩, h5⟩, h6⟩, h7⟩, h8⟩, h9⟩, h10⟩, h11⟩ := hrm
    have e3 : weekday_map.find? (fun p => sEq (pyStrip (pyLower expr)) p.fst) = none := by
      rw [List.find?_eq_none]
      intro x hx
      simp only [List.any_eq_false] at h3
      simp [h3 x hx]
    have e7 : daysLaterScan (pyStrip (pyLower expr)).data = none :=
      Option.not_isSome_iff_eq_none.mp (by simp [h7])
    have e8 : tryParseYmdDash (pyStrip (pyLower expr)).data = none :=
      Option.not_isSome_iff_eq_none.mp (by simp [h8])
    have e9 : tryParseYmdCn (pyStrip (pyLower expr)).data = none :=
      Option.not_isSome_iff_eq_none.mp (by simp [h9])
    have e10 : tryParseMdCn (pyStrip (pyLower expr)).data = none :=
      Option.not_isSome_iff_eq_none.mp (by simp [h10])
    have e11 : monthNameLoop month_names (pyStrip (pyLower expr)).data
        (ordToYmd ref).fst = none :=
      Option.not_isSome_iff_eq_none.mp (by simp [h11])
    unfold calculateDate
    simp only [h1, h2, h4, h5, h6, e3, e7, e8, e9, e10, e11, Bool.false_eq_true, if_false]
    rfl

/-- C9 amended witness: a no-rule-matches input resolves to None. -/
theorem claim_c9_amended_witness :
    ruleMatches "完成项目" 739252 = false ∧ calculateDate "完成项目" 739252 = .ok none :=
  ⟨by rfl, (claim_c9_amended "完成项目" 739252).2 (by rfl)⟩

-- ===== replace/contains distribution lemmas =====

theorem replaceFuel_nil (pat rep : List Char) : ∀ f, replaceFuel pat rep f [] = [] := by
  intro f; cases f <;> rfl

theorem startsWithL_length_le (pat : List Char) :
    ∀ s, startsWithL pat s = true → pat.length ≤ s.length := by
  induction pat with
  | nil => intro s _; simp
  | cons p ps ih =>
    intro s h
    cases s with
    | nil => simp [startsWithL] at h
    | cons c cs =>
      simp only [startsWithL, Bool.and_eq_true] at h
      simpa using ih cs h.2

theorem startsWithL_nl_false (pat : List Char) (hpat : pat ≠ []) (hnl : Char.ofNat 10 ∉ pat)
    (b : List Char) : startsWithL pat (Char.ofNat 10 :: b) = false := by
  cases pat with
  | nil => exact absurd rfl hpat
  | cons p ps =>
    have hp : p ≠ Char.ofNat 10 := fun h => hnl (h ▸ List.mem_cons_self p ps)
    simp [startsWithL, hp, Ne.symm hp]

theorem startsWithL_append_nl (pat : List Char) (hnl : Char.ofNat 10 ∉ pat) :
    ∀ xs b, startsWithL pat (xs ++ Char.ofNat 10 :: b) = startsWithL pat xs := by
  induction pat with
  | nil => intro xs b; rfl
  | cons p ps ih =>
    intro xs b
    cases xs with
    | nil =>
      have hp : p ≠ Char.ofNat 10 := fun h => hnl (h ▸ List.mem_cons_self p ps)
      simp [startsWithL, hp, Ne.symm hp]
    | cons x xs2 =>
      simp only [List.cons_append, startsWithL]
      rw [show xs2.append (Char.ofNat 10 :: b) = xs2 ++ Char.ofNat 10 :: b from rfl,
        ih (fun h => hnl (List.mem_cons_of_mem p h)) xs2 b]

theorem replaceFuel_congr (pat rep : List Char) (hpat : pat ≠ []) :
    ∀ n (s : List Char), s.length ≤ n → ∀ f1 f2, s.length ≤ f1 → s.length ≤ f2 →
      replaceFuel pat rep f1 s = replaceFuel pat rep f2 s := by
  intro n
  induction n with
  | zero =>
    intro s hs f1 f2 _ _
    have : s = [] := List.eq_nil_of_length_eq_zero (Nat.le_zero.mp hs)
    subst this
    rw [replaceFuel_nil, replaceFuel_nil]
  | succ n ih =>
    intro s hs f1 f2 h1 h2
    cases s with
    | nil => rw [replaceFuel_nil, replaceFuel_nil]
    | cons c cs =>
      have hp1 : 1 ≤ pat.length := by
        cases pat with
        | nil => exact absurd rfl hpat
        | cons _ _ => simp
      cases f1 with
      | zero => simp at h1
      | succ f1' =>
        cases f2 with
        | zero => simp at h2
        | succ f2' =>
          simp only [replaceFuel]
          split
          · rename_i hsw
            have hlen : (List.drop pat.length (c :: cs)).length ≤ n := by
              simp only [List.length_drop, List.length_cons]
              simp only [List.length_cons] at hs
              omega
            have hf1 : (List.drop pat.length (c :: cs)).length ≤ f1' := by
              simp only [List.length_drop, List.length_cons]
              simp only [List.length_cons] at h1
              omega
            have hf2 : (List.drop pat.length (c :: cs)).length ≤ f2' := by
              simp only [List.length_drop, List.length_cons]
              simp only [List.length_cons] at h2
              omega
            rw [ih _ hlen _ _ hf1 hf2]
          · have hlen : cs.length ≤ n := by
              simp only [List.length_cons] at hs; omega
            have hf1 : cs.length ≤ f1' := by
              simp only [List.length_cons] at h1; omega
            have hf2 : cs.length ≤ f2' := by
              simp only [List.length_cons] at h2; omega
            rw [ih _ hlen _ _ hf1 hf2]

theorem pyReplaceL_append_nl (pat rep : List Char) (hpat : pat ≠ [])
    (hnl : Char.ofNat 10 ∉ pat) :
    ∀ n (a b : List Char), a.length ≤ n →
      pyReplaceL pat rep (a ++ Char.ofNat 10 :: b) =
        pyReplaceL pat rep a ++ Char.ofNat 10 :: pyReplaceL pat rep b := by
  have hp1 : 1 ≤ pat.length := by
    cases pat with
    | nil => exact absurd rfl hpat
    | cons _ _ => simp
  intro n
  induction n with
  | zero =>
    intro a b ha
    have : a = [] := List.eq_nil_of_length_eq_zero (Nat.le_zero.mp ha)
    subst this
    simp only [List.nil_append, pyReplaceL, List.length_cons, replaceFuel,
      startsWithL_nl_false pat hpat hnl b, Bool.false_eq_true, if_false]
  | succ n ih =>
    intro a b ha
    cases a with
    | nil =>
      simp only [List.nil_append, pyReplaceL, List.length_cons, replaceFuel,
        startsWithL_nl_false pat hpat hnl b, Bool.false_eq_true, if_false]
    | cons c a2 =>
      have step : pyReplaceL pat rep ((c :: a2) ++ Char.ofNat 10 :: b)
          = if startsWithL pat ((c :: a2) ++ Char.ofNat 10 :: b) = true then
              rep ++ replaceFuel pat rep ((a2 ++ Char.ofNat 10 :: b).length)
                (List.drop pat.length ((c :: a2) ++ Char.ofNat 10 :: b))
            else c :: replaceFuel pat rep ((a2 ++ Char.ofNat 10 :: b).length)
              (a2 ++ Char.ofNat 10 :: b) := rfl
      have stepR : pyReplaceL pat rep (c :: a2)
          = if startsWithL pat (c :: a2) = true then
              rep ++ replaceFuel pat rep a2.length (List.drop pat.length (c :: a2))
            else c :: replaceFuel pat rep a2.length a2 := rfl
      rw [step, stepR, startsWithL_append_nl pat hnl (c :: a2) b]
      have e1 : replaceFuel pat rep ((a2 ++ Char.ofNat 10 :: b).length)
          (a2 ++ Char.ofNat 10 :: b) = pyReplaceL pat rep (a2 ++ Char.ofNat 10 :: b) := rfl
      split
      · rename_i hsw
        have hple : pat.length ≤ (c :: a2).length := startsWithL_length_le pat (c :: a2) hsw
        rw [List.drop_append_of_le_length hple]
        have hdlen : (List.drop pat.length (c :: a2)).length ≤ n := by
          simp only [List.length_drop, List.length_cons]
          simp only [List.length_cons] at ha
          omega
        have e2 : replaceFuel pat rep ((a2 ++ Char.ofNat 10 :: b).length)
            (List.drop pat.length (c :: a2) ++ Char.ofNat 10 :: b) =
            pyReplaceL pat rep (List.drop pat.length (c :: a2) ++ Char.ofNat 10 :: b) := by
          apply replaceFuel_congr pat rep hpat
            ((List.drop pat.length (c :: a2) ++ Char.ofNat 10 :: b).length)
          · exact le_refl _
          · simp only [List.length_append, List.length_drop, List.length_cons]
            omega
          · exact le_refl _
        have e3 : replaceFuel pat rep a2.length (List.drop pat.length (c :: a2)) =
            pyReplaceL pat rep (List.drop pat.length (c :: a2)) := by
          apply replaceFuel_congr pat rep hpat (List.drop pat.length (c :: a2)).length
          · exact le_refl _
          · simp only [List.length_drop, List.length_cons]
            omega
          · exact le_refl _
        rw [e2, e3, ih _ b hdlen, List.append_assoc]
      · have hdlen : a2.length ≤ n := by
          simp only [List.length_cons] at ha
          omega
        have e2 : replaceFuel pat rep a2.length a2 = pyReplaceL pat rep a2 := rfl
        rw [e1, e2, ih _ b hdlen]
        rfl

theorem pyReplaceL_joinNl (pat rep : List Char) (hpat : pat ≠ [])
    (hnl : Char.ofNat 10 ∉ pat) :
    ∀ parts, pyReplaceL pat rep (joinNl parts) = joinNl (parts.map (pyReplaceL pat rep)) := by
  intro parts
  induction parts with
  | nil => rfl
  | cons x xs ih =>
    cases xs with
    | nil => rfl
    | cons y ys =>
      have hL : joinNl (x :: y :: ys) = x ++ Char.ofNat 10 :: joinNl (y :: ys) := rfl
      have hR : joinNl ((x :: y :: ys).map (pyReplaceL pat rep))
          = pyReplaceL pat rep x ++
              Char.ofNat 10 :: joinNl ((y :: ys).map (pyReplaceL pat rep)) := rfl
      rw [hL, hR, pyReplaceL_append_nl pat rep hpat hnl x.length x _ (le_refl _), ih]

theorem startsWithL_append_of (pat : List Char) :
    ∀ s t, startsWithL pat s = true → startsWithL pat (s ++ t) = true := by
  induction pat with
  | nil => intro s t _; rfl
  | cons p ps ih =>
    intro s t h
    cases s with
    | nil => simp [startsWithL] at h
    | cons c cs =>
      simp only [startsWithL, Bool.and_eq_true] at h
      simp only [List.cons_append, startsWithL, Bool.and_eq_true]
      exact ⟨h.1, ih cs t h.2⟩

theorem startsWithL_nil_false (sub : List Char) (hsub : sub ≠ []) :
    startsWithL sub [] = false := by
  cases sub with
  | nil => exact absurd rfl hsub
  | cons p ps => rfl

theorem containsL_nil_false (sub : List Char) (hsub : sub ≠ []) :
    containsL sub [] = false := by
  cases sub with
  | nil => exact absurd rfl hsub
  | cons p ps => rfl

theorem containsL_append_nl (sub : List Char) (hsub : sub ≠ [])
    (hnl : Char.ofNat 10 ∉ sub) :
    ∀ x y, containsL sub (x ++ Char.ofNat 10 :: y) = (containsL sub x || containsL sub y) := by
  intro x y
  induction x with
  | nil =>
    simp only [List.nil_append, containsL, startsWithL_nl_false sub hsub hnl y,
      startsWithL_nil_false sub hsub, Bool.false_or]
  | cons c cs ih =>
    have step : containsL sub ((c :: cs) ++ Char.ofNat 10 :: y)
        = (startsWithL sub ((c :: cs) ++ Char.ofNat 10 :: y) ||
            containsL sub (cs ++ Char.ofNat 10 :: y)) := rfl
    rw [step, startsWithL_append_nl sub hnl (c :: cs) y, ih]
    show _ = (startsWithL sub (c :: cs) || containsL sub cs || containsL sub y)
    rw [Bool.or_assoc]

theorem containsL_joinNl (sub : List Char) (hsub : sub ≠ [])
    (hnl : Char.ofNat 10 ∉ sub) :
    ∀ parts, containsL sub (joinNl parts) = parts.any (fun p => containsL sub p) := by
  intro parts
  induction parts with
  | nil => simp [joinNl, containsL_nil_false sub hsub]
  | cons x xs ih =>
    cases xs with
    | nil => simp [joinNl]
    | cons y ys =>
      simp only [joinNl] at ih ⊢
      rw [containsL_append_nl sub hsub hnl, ih]
      simp [List.any_cons]

theorem pyReplace_data (s pat rep : String) :
    (pyReplace s pat rep).data = pyReplaceL pat.data rep.data s.data := rfl

theorem system_prompt_data :
    system_prompt.data = joinNl (systemPromptSegs.map String.data) := rfl

set_option maxRecDepth 20000 in
theorem assembled_2026_eq :
    (assembledSystemMessage 2026).data
      = joinNl ((systemPromptSegs.map String.data).map
          (pyReplaceL "2025-".data "2026-".data)) := by
  have h1 : assembledSystemMessage 2026 = pyReplace system_prompt "2025-" "2026-" := by
    unfold assembledSystemMessage
    rw [show (toString (2026 : Nat) ++ "-") = "2026-" from rfl]
  rw [h1, pyReplace_data, system_prompt_data]
  exact pyReplaceL_joinNl _ _ (by decide) (by decide) _

set_option maxRecDepth 20000 in
/-- C8 counterexample: with reference year 2026 the assembled system message
still contains the example date 2025年3月15日 — an example date whose year
differs from the reference year — because the rewrite only targets the
literal `2025-` (main.py line 930), refuting the claim that no example date
retains a different year. -/
theorem claim_c8_counterexample :
    containsL "2025年3月15日".data (assembledSystemMessage 2026).data = true := by
  rw [assembled_2026_eq, containsL_joinNl _ (by decide) (by decide)]
  decide

set_option maxRecDepth 20000 in
/-- C8 amended: the year rewrite replaces exactly the hyphenated example
years: the template contains `2025-` dates and the 2025年3月15日 example; after
assembly for reference year 2026 no `2025-` remains and the rewritten
`2026-03-03` example is present, but the 年-form example survives with its
stale year. -/
theorem claim_c8_amended :
    containsL "2025-".data system_prompt.data = true ∧
    containsL "2025年3月15日".data system_prompt.data = true ∧
    containsL "2025-".data (assembledSystemMessage 2026).data = false ∧
    containsL "2026-03-03".data (assembledSystemMessage 2026).data = true ∧
    containsL "2025年3月15日".data (assembledSystemMessage 2026).data = true := by
  refine ⟨?_, ?_, ?_, ?_, ?_⟩
  · rw [system_prompt_data, containsL_joinNl _ (by decide) (by decide)]
    decide
  · rw [system_prompt_data, containsL_joinNl _ (by decide) (by decide)]
    decide
  · rw [assembled_2026_eq, containsL_joinNl _ (by decide) (by decide)]
    decide
  · rw [assembled_2026_eq, containsL_joinNl _ (by decide) (by decide)]
    decide
  · rw [assembled_2026_eq, containsL_joinNl _ (by decide) (by decide)]
    decide
